import Mathlib

/-!
# grid-seq: shallow embedding of the sequencer core

This file embeds the grid-seq LV2 step sequencer (the primary variant of
`src/launchpad.c`, together with `state.c`, the final `sequencer.c`
fragment, and the pad decoding helper `lp_note_to_grid` from the
launchpad header) as executable Lean definitions, and proves or refutes
the frozen specification claims about it.

Modelling conventions:
* machine integers are `Nat` with explicit `% 2^w` where overflow or
  truncation matters (`uint8_t` casts are `% 256`, the 64-bit frame
  counter wraps at `2^64`, the 32-bit change counter at `2^32`);
* `float`/`double` control-port values and tempo values are modelled as
  exact rationals `ℚ`; the conversion `(uint64_t)(seconds_per_beat *
  sample_rate)` is modelled as the exact floor of `60·sr/bpm`, computed
  on numerators and denominators so that it stays kernel-reducible;
* the grid and the active-note array are total Boolean functions on
  `Nat`; C reads/writes outside the declared array bounds (undefined
  behaviour in the source) show up as reads/writes at indices `≥ 128`;
* the three LV2 output streams are projected to what the claims talk
  about: the MIDI note stream is the list of `(frame_offset, bytes)`
  pairs forged into `midi_out` in emission order (the enter-programmer
  sysex included); LED and notify traffic, which no claim quantifies
  over, is tracked only through the `grid_dirty` / `prev_led_step` /
  `last_toggled` bookkeeping that the source keeps for it.
-/

/-- `GRID_SIZE` from `include/grid_seq/common.h`. -/
def GRID_SIZE : Nat := 8

/-- `BASE_NOTE_C2` from `include/grid_seq/common.h`. -/
def BASE_NOTE_C2 : Nat := 36

/-- `MAX_GRID_SIZE` (maximum sequence length), from the project
development guide in the repository. -/
def MAX_GRID_SIZE : Nat := 16

/-- `MIN_SEQUENCE_LENGTH` from the development guide. -/
def MIN_SEQUENCE_LENGTH : Nat := 1

/-- `MAX_SEQUENCE_LENGTH` from the development guide. -/
def MAX_SEQUENCE_LENGTH : Nat := 16

/-- `GRID_PITCH_RANGE` (full MIDI note range) from the development
guide. -/
def GRID_PITCH_RANGE : Nat := 128

/-- `GRID_VISIBLE_ROWS` from the development guide. -/
def GRID_VISIBLE_ROWS : Nat := 8

/-- `DEFAULT_PITCH_OFFSET` (C2 = MIDI 36) from the development guide. -/
def DEFAULT_PITCH_OFFSET : Nat := 36

/-- Modelled from the spec: the macro `GRID_ROWS` (the second dimension
of `grid`) is not defined by any header in the tree.  The primary
`run()` indexes `grid[x][note]` for absolute notes up to 127, its pad
handler toggles cells exactly when the absolute note is `<
GRID_PITCH_RANGE`, and the development guide declares the grid as
`bool grid[MAX_GRID_SIZE][GRID_PITCH_RANGE]`, so `GRID_ROWS` must equal
`GRID_PITCH_RANGE = 128` (the spec's `PITCH_RANGE`). -/
def GRID_ROWS : Nat := 128

/-- Modelled from the spec: the macro `DEFAULT_SEQUENCE_LENGTH` used by
`state_init` is not defined by any header in the tree; the spec's
scenarios and the README use 8 steps as the default. -/
def DEFAULT_SEQUENCE_LENGTH : Nat := 8

/-- Wrap-around modulus of the `uint64_t` frame counter. -/
def U64 : Nat := 2 ^ 64

/-- Wrap-around modulus of the `uint32_t` change counter. -/
def U32 : Nat := 2 ^ 32

/-- `GridSeqState` (state.h / development guide): the sequencer state
proper.  `beats_per_bar` is carried but never read by the embedded
code paths, so it is omitted. -/
structure GridSeqState where
  grid : Nat → Nat → Bool
  base_note : Nat
  current_step : Nat
  previous_step : Nat
  sequence_length : Nat
  hardware_page : Nat
  sample_rate : ℚ
  playing : Bool
  first_run : Bool
  frame_counter : Nat
  frames_per_step : Nat
  active_notes : Nat → Bool
  pitch_offset : Nat

/-- The frames-per-step computation of `state_update_tempo`:
`(uint64_t)(seconds_per_beat * sample_rate)` = `⌊60·sr/bpm⌋` for
positive `sr` and `bpm`, computed on numerators/denominators (no ℚ
multiplication, so concrete values reduce in the kernel). -/
def tempo_frames (sr bpm : ℚ) : Nat :=
  (60 * sr.num.toNat * bpm.den) / (bpm.num.toNat * sr.den)

/-- `state_update_tempo` from state.c: guarded by `bpm <= 0.0`. -/
def state_update_tempo (st : GridSeqState) (bpm : ℚ) : GridSeqState :=
  if bpm ≤ 0 then st
  else { st with frames_per_step := tempo_frames st.sample_rate bpm }

/-- `state_toggle_step` from state.c: flips one cell iff both
coordinates are in range, otherwise a no-op. -/
def state_toggle_step (st : GridSeqState) (x y : Nat) : GridSeqState :=
  if MAX_GRID_SIZE ≤ x ∨ GRID_ROWS ≤ y then st
  else { st with grid := fun a b => if a = x ∧ b = y then !st.grid a b else st.grid a b }

/-- `state_init` from state.c: `memset` zeroes every field (in
particular `pitch_offset = 0`, `first_run = false`, empty grid and
active set), then the named fields are set and `state_update_tempo`
is applied at 120 BPM. -/
def state_init (sample_rate : ℚ) : GridSeqState :=
  state_update_tempo
    { grid := fun _ _ => false
      base_note := BASE_NOTE_C2
      current_step := 0
      previous_step := 0
      sequence_length := DEFAULT_SEQUENCE_LENGTH
      hardware_page := 0
      sample_rate := sample_rate
      playing := false
      first_run := false
      frame_counter := 0
      frames_per_step := 0
      active_notes := fun _ => false
      pitch_offset := 0 } 120

/-- `lp_note_to_grid` from the launchpad header:
`x = (note-11) % 10`, `y = (note-11) / 10` (callers check `note ≥ 11`
first, so the `uint8_t` subtraction does not wrap). -/
def lp_note_to_grid (note : Nat) : Nat × Nat :=
  ((note - 11) % 10, (note - 11) / 10)

/-- One forged MIDI event: `(frame_offset, raw bytes)`. -/
abbrev MidiEv := Nat × List Nat

/-- `sequencer_process_step` (final sequencer.c fragment): for the
current step column, emit `NoteOn(0x90, base_note + y, 100)` for every
set row `y < GRID_ROWS` at the given frame offset (in ascending `y`
order, mirroring the loop), mark each such note active, and record
`previous_step`.  The `uint8_t` note is `(base_note + y) % 256`; for
`base_note = 36` and `y ≥ 92` the C code writes `active_notes` out of
its declared 128-element bounds, which the total model represents as
indices `≥ 128`. -/
def sequencer_process_step (st : GridSeqState) (frame_offset : Nat) :
    GridSeqState × List MidiEv :=
  let x := st.current_step
  let evs := (List.range GRID_ROWS).filterMap
    (fun y => if st.grid x y then
        some (frame_offset, [0x90, (st.base_note + y) % 256, 100]) else none)
  ({ st with
      active_notes := fun n =>
        st.active_notes n ||
          (List.range GRID_ROWS).any
            (fun y => st.grid x y && ((st.base_note + y) % 256 == n))
      previous_step := st.current_step }, evs)

/-- `sequencer_process_note_offs` (final sequencer.c fragment): emit
`NoteOff(0x80, note, 0)` for every active `note < 128` at the given
offset, clearing exactly those entries. -/
def sequencer_process_note_offs (st : GridSeqState) (frame_offset : Nat) :
    GridSeqState × List MidiEv :=
  let evs := (List.range 128).filterMap
    (fun n => if st.active_notes n then some (frame_offset, [0x80, n, 0]) else none)
  ({ st with
      active_notes := fun n => if n < 128 then false else st.active_notes n }, evs)

/-- `sequencer_advance` (final sequencer.c fragment): when playing,
add `n_samples` to the 64-bit frame counter and report whether the
step index `frame_counter / frames_per_step` changed, updating
`current_step = (uint8_t)(new_step % sequence_length)`.  When
`frames_per_step = 0` the C division is undefined behaviour; the model
uses Lean's `x / 0 = 0` (claim C3 addresses this). -/
def sequencer_advance (st : GridSeqState) (n_samples : Nat) :
    GridSeqState × Bool :=
  if !st.playing then (st, false)
  else
    let old_step := st.frame_counter / st.frames_per_step
    let fc := (st.frame_counter + n_samples) % U64
    let new_step := fc / st.frames_per_step
    if new_step ≠ old_step then
      ({ st with frame_counter := fc
                 current_step := (new_step % st.sequence_length) % 256 }, true)
    else ({ st with frame_counter := fc }, false)

/-- Plugin instance state (`GridSeq` struct of the primary variant):
sequencer state plus the control-port edge detection and Launchpad
bookkeeping. -/
structure GridSeq where
  st : GridSeqState
  prev_grid_x : ℚ
  prev_grid_y : ℚ
  launchpad_mode_entered : Bool
  prev_led_step : Nat
  grid_dirty : Bool
  grid_change_counter : Nat
  last_toggled_x : Int
  last_toggled_y : Int

/-- `instantiate` (primary variant): zero-initialised instance with
`state_init`, previous control values −1, mode flag clear, dirty set. -/
def instantiate (rate : ℚ) : GridSeq :=
  { st := state_init rate
    prev_grid_x := -1
    prev_grid_y := -1
    launchpad_mode_entered := false
    prev_led_step := 0
    grid_dirty := true
    grid_change_counter := 0
    last_toggled_x := -1
    last_toggled_y := -1 }

/-- `activate` (primary variant, launchpad.c lines 540–559): keep the
grid, clear the mode flag, start playing from frame 0 with
`first_run` set and LEDs dirty. -/
def activate (gs : GridSeq) : GridSeq :=
  { gs with
      launchpad_mode_entered := false
      st := { gs.st with
                playing := true
                frame_counter := 0
                current_step := 0
                previous_step := GRID_SIZE - 1
                first_run := true }
      grid_dirty := true }

/-- One event of the input atom sequence: a time/Position object
(optional BPM, optional speed), a raw MIDI event, or anything else
(ignored). -/
inductive InEvent where
  | position (bpm : Option ℚ) (speed : Option ℚ)
  | midi (bytes : List Nat)
  | other
deriving DecidableEq

/-- The host-supplied inputs of one `run()` call: the buffer size, the
input event sequence, and the four scalar control ports (`none` = port
not connected, matching the source's null checks). -/
structure TickIn where
  n_samples : Nat
  events : List InEvent
  grid_x : Option ℚ
  grid_y : Option ℚ
  sequence_length_port : Option ℚ
  midi_filter : Option ℚ

/-- The `(uint8_t)` cast of a control-port float: truncation toward
zero, which for the non-negative values the ports carry is the floor
`num / den` (negative inputs are undefined behaviour in C; the model
clamps them to 0). -/
def float_trunc (q : ℚ) : Nat := (q.num / (q.den : Int)).toNat

/-- Port read at the top of `run()`: accept a new sequence length only
inside `[MIN_SEQUENCE_LENGTH, MAX_SEQUENCE_LENGTH]`. -/
def read_length_port (gs : GridSeq) (port : Option ℚ) : GridSeq :=
  match port with
  | none => gs
  | some q =>
      let new_length := float_trunc q % 256
      if MIN_SEQUENCE_LENGTH ≤ new_length ∧ new_length ≤ MAX_SEQUENCE_LENGTH then
        { gs with st := { gs.st with sequence_length := new_length } }
      else gs

/-- The input-event loop body of the primary `run()` (launchpad.c
lines 573–698): time/Position handling (tempo, transport speed) and
raw MIDI handling (pad Note On toggles, CC 91–94 navigation). -/
def process_event (gs : GridSeq) (ev : InEvent) : GridSeq :=
  match ev with
  | .other => gs
  | .position bpmOpt speedOpt =>
      let gs1 :=
        match bpmOpt with
        | some bpm => if 0 < bpm then { gs with st := state_update_tempo gs.st bpm } else gs
        | none => gs
      (match speedOpt with
       | some speed =>
           let was_playing := gs1.st.playing
           let now_playing : Bool := decide (0 < speed)
           let st1 := { gs1.st with playing := now_playing }
           let st2 := if !was_playing && now_playing then
                        { st1 with frame_counter := 0, current_step := 0 }
                      else st1
           { gs1 with st := st2 }
       | none => gs1)
  | .midi bytes =>
      let b0 := bytes.getD 0 0
      let b1 := bytes.getD 1 0
      let b2 := bytes.getD 2 0
      if b0 &&& 0xF0 = 0x90 ∧ 0 < b2 then
        if 11 ≤ b1 ∧ b1 ≤ 88 then
          let xy := lp_note_to_grid b1
          if xy.1 < 8 ∧ xy.2 < 8 then
            let actual_x := xy.1 + gs.st.hardware_page * 8
            let actual_y := (xy.2 + gs.st.pitch_offset) % 256
            if actual_x < gs.st.sequence_length ∧ actual_y < GRID_PITCH_RANGE then
              { gs with
                  st := state_toggle_step gs.st actual_x actual_y
                  grid_dirty := true
                  grid_change_counter := (gs.grid_change_counter + 1) % U32
                  last_toggled_x := (actual_x : Int)
                  last_toggled_y := (actual_y : Int) }
            else gs
          else gs
        else gs
      else if b0 &&& 0xF0 = 0xB0 then
        if 0 < b2 then
          if b1 = 93 then
            if 0 < gs.st.hardware_page then
              { gs with st := { gs.st with hardware_page := gs.st.hardware_page - 1 }
                        grid_dirty := true }
            else gs
          else if b1 = 94 then
            if 8 < gs.st.sequence_length ∧ gs.st.hardware_page = 0 then
              { gs with st := { gs.st with hardware_page := 1 }
                        grid_dirty := true }
            else gs
          else if b1 = 91 then
            if 0 < gs.st.pitch_offset then
              { gs with st := { gs.st with pitch_offset := gs.st.pitch_offset - 1 }
                        grid_dirty := true }
            else gs
          else if b1 = 92 then
            if gs.st.pitch_offset < GRID_PITCH_RANGE - GRID_VISIBLE_ROWS then
              { gs with st := { gs.st with pitch_offset := gs.st.pitch_offset + 1 }
                        grid_dirty := true }
            else gs
          else gs
        else gs
      else gs

/-- The grid_x/grid_y control block of the primary `run()` (launchpad.c
lines 701–820).  `Sum.inl` is the early `return` taken on a sentinel
transition (−200 query, −100 reset, −300 clear, −400 re-center): the
rest of the tick — forge setup, output-port writes, sequencer advance,
LED refresh — is skipped.  The sysex bytes the −200/−100 branches forge
are written through a forge whose buffer was bound on the previous
tick, so they never reach this tick's output; the model keeps only the
state effects.  `Sum.inr` continues the tick. -/
def process_grid_controls (gs : GridSeq) (px py : Option ℚ) :
    GridSeq ⊕ GridSeq :=
  match px, py with
  | some x, some y =>
      if x = -200 ∧ x ≠ gs.prev_grid_x then
        Sum.inl { gs with prev_grid_x := x }
      else if x = -100 ∧ x ≠ gs.prev_grid_x then
        Sum.inl { gs with launchpad_mode_entered := false, prev_grid_x := x }
      else if x = -300 ∧ x ≠ gs.prev_grid_x then
        Sum.inl { gs with
                    st := { gs.st with grid := fun _ _ => false }
                    grid_dirty := true
                    grid_change_counter := (gs.grid_change_counter + 1) % U32
                    prev_grid_x := x }
      else if x = -400 ∧ x ≠ gs.prev_grid_x then
        Sum.inl { gs with
                    st := { gs.st with pitch_offset := DEFAULT_PITCH_OFFSET }
                    grid_dirty := true
                    prev_grid_x := x }
      else if (x ≠ gs.prev_grid_x ∨ y ≠ gs.prev_grid_y) ∧
              0 ≤ x ∧ x < (MAX_GRID_SIZE : ℚ) ∧ 0 ≤ y ∧ y < (GRID_VISIBLE_ROWS : ℚ) then
        let absolute_note := (gs.st.pitch_offset + float_trunc y) % 256
        if absolute_note < GRID_PITCH_RANGE then
          Sum.inr { gs with
                      st := state_toggle_step gs.st (float_trunc x) absolute_note
                      prev_grid_x := x
                      prev_grid_y := y
                      grid_dirty := true
                      grid_change_counter := (gs.grid_change_counter + 1) % U32
                      last_toggled_x := (float_trunc x : Int)
                      last_toggled_y := (absolute_note : Int) }
        else Sum.inr gs
      else Sum.inr gs
  | _, _ => Sum.inr gs

/-- Everything of `run()` before the playback phase: length port,
event drain, grid_x/grid_y block. -/
def pre_playback (gs : GridSeq) (inp : TickIn) : GridSeq ⊕ GridSeq :=
  process_grid_controls
    (inp.events.foldl process_event (read_length_port gs inp.sequence_length_port))
    inp.grid_x inp.grid_y

/-- `update_grid_row_ports`: the 16 bit-packed row outputs; bit `y` of
row `x` is `grid[x][(uint8_t)(pitch_offset + y)]`. -/
def update_grid_row_ports (st : GridSeqState) : List Nat :=
  (List.range MAX_GRID_SIZE).map (fun x =>
    (List.range GRID_VISIBLE_ROWS).foldl
      (fun acc y => if st.grid x ((st.pitch_offset + y) % 256)
                    then acc ||| (1 <<< y) else acc) 0)

/-- `*midi_filter > 0.5f` with the source's null check. -/
def one_half : ℚ := ⟨1, 2, by decide, Nat.coprime_one_left 2⟩

/-- Whether the mid-step Note Offs are suppressed this tick. -/
def filter_enabled (port : Option ℚ) : Bool :=
  match port with
  | none => false
  | some v => decide (one_half < v)

/-- The enter-programmer-mode sysex `F0 00 20 29 02 0D 0E 01 F7`. -/
def enter_sysex : List Nat := [0xF0, 0x00, 0x20, 0x29, 0x02, 0x0D, 0x0E, 0x01, 0xF7]

/-- The Note On / advance part of the playback phase (launchpad.c lines
879–887): on `first_run` process step `current_step` at offset 0 and
clear the flag; otherwise advance and, on a step crossing, process the
new step at offset 0.  The third component reports the crossing (used
to mark LEDs dirty). -/
def on_phase (st : GridSeqState) (n_samples : Nat) :
    GridSeqState × List MidiEv × Bool :=
  if st.first_run then
    let r := sequencer_process_step st 0
    ({ r.1 with first_run := false }, r.2, false)
  else
    let a := sequencer_advance st n_samples
    if a.2 then
      let r := sequencer_process_step a.1 0
      (r.1, r.2, true)
    else (a.1, [], false)

/-- The playback phase of `run()` (launchpad.c lines 873–905): capture
the old frame, run the Note On / advance part, then fire the mid-step
Note Offs iff the old step-frame was below `frames_per_step / 2` and
the new one is at or above it, at offset `half_point − old_frame`
(`uint32_t`), unless the MIDI filter is enabled. -/
def playback_phase (st : GridSeqState) (n_samples : Nat) (fe : Bool) :
    GridSeqState × List MidiEv × Bool :=
  let old_frame := st.frame_counter
  let was_before_half := old_frame % st.frames_per_step < st.frames_per_step / 2
  let r := on_phase st n_samples
  let st1 := r.1
  let is_after_half := st1.frames_per_step / 2 ≤ st1.frame_counter % st1.frames_per_step
  if was_before_half ∧ is_after_half then
    let half_point := st1.frame_counter / st1.frames_per_step * st1.frames_per_step
                        + st1.frames_per_step / 2
    let off := (half_point - old_frame) % U32
    if fe then (st1, r.2.1, r.2.2)
    else
      let q := sequencer_process_note_offs st1 off
      (q.1, r.2.1 ++ q.2, r.2.2)
  else (st1, r.2.1, r.2.2)

/-- The observable outputs of one tick.  `rows_out` are the 16 row
ports; `none` means the tick returned before writing them (the sentinel
early return). -/
structure TickOut where
  midi_out : List MidiEv
  current_step_out : Option Nat
  grid_changed_out : Option Nat
  rows_out : Option (List Nat)
deriving DecidableEq

/-- The outputs of a sentinel early-return tick: nothing forged,
nothing written. -/
def early_out : TickOut :=
  { midi_out := [], current_step_out := none, grid_changed_out := none, rows_out := none }

/-- The tail of `run()` after the control blocks (launchpad.c lines
822–943): write `current_step` (pre-advance value), `grid_changed`,
and the 16 row packings; send the enter-programmer sysex once; run the
playback phase; refresh the LED bookkeeping; reset the toggle
tracker. -/
def run_main (gs : GridSeq) (n_samples : Nat) (fe : Bool) : GridSeq × TickOut :=
  let step_out := gs.st.current_step
  let changed_out := gs.grid_change_counter % 1000000
  let rows := update_grid_row_ports gs.st
  let entered := gs.launchpad_mode_entered
  let gs1 := if entered then gs
             else { gs with launchpad_mode_entered := true, grid_dirty := true }
  let pr := playback_phase gs1.st n_samples fe
  let gs2 := { gs1 with st := pr.1, grid_dirty := gs1.grid_dirty || pr.2.2 }
  let gs3 := if gs2.grid_dirty || decide (pr.1.current_step ≠ gs2.prev_led_step) then
               { gs2 with grid_dirty := false, prev_led_step := pr.1.current_step }
             else gs2
  let gs4 := if 0 ≤ gs3.last_toggled_x ∧ 0 ≤ gs3.last_toggled_y then
               { gs3 with last_toggled_x := -1, last_toggled_y := -1 }
             else gs3
  (gs4,
    { midi_out := (if entered then [] else [(0, enter_sysex)]) ++ pr.2.1
      current_step_out := some step_out
      grid_changed_out := some changed_out
      rows_out := some rows })

/-- `run()` of the primary variant: pre-playback control handling, then
either the sentinel early return or the main tick body. -/
def run (gs : GridSeq) (inp : TickIn) : GridSeq × TickOut :=
  match pre_playback gs inp with
  | Sum.inl gsE => (gsE, early_out)
  | Sum.inr gs3 => run_main gs3 inp.n_samples (filter_enabled inp.midi_filter)

-- ### Concrete states used by witnesses and counterexamples

/-- A playing instance with an empty pattern, 24000 frames per step,
programmer mode already entered, used as the base of the concrete
scenarios. -/
def st_play : GridSeqState :=
  { grid := fun _ _ => false
    base_note := 36
    current_step := 0
    previous_step := 0
    sequence_length := 8
    hardware_page := 0
    sample_rate := 48000
    playing := true
    first_run := false
    frame_counter := 0
    frames_per_step := 24000
    active_notes := fun _ => false
    pitch_offset := 36 }

/-- Wrap a sequencer state into a plugin instance with neutral
bookkeeping (mode entered, nothing dirty, counters clear). -/
def mk_gs (st : GridSeqState) : GridSeq :=
  { st := st
    prev_grid_x := -1
    prev_grid_y := -1
    launchpad_mode_entered := true
    prev_led_step := 0
    grid_dirty := false
    grid_change_counter := 0
    last_toggled_x := -1
    last_toggled_y := -1 }

/-- Tick inputs with only the event stream and buffer size set; all
scalar ports disconnected. -/
def quiet_in (evs : List InEvent) (n : Nat) : TickIn :=
  { n_samples := n
    events := evs
    grid_x := none
    grid_y := none
    sequence_length_port := none
    midi_filter := none }

-- Concrete states for claim C1

/-- Playing instance with pitch 36 sounding, mid-step, used to exercise
the transport-stop behaviour. -/
def gs_c1 : GridSeq :=
  mk_gs { st_play with frame_counter := 300, active_notes := fun n => n == 36 }

/-- A tick carrying one Position event with `speed = 0`. -/
def in_c1 : TickIn := quiet_in [InEvent.position none (some 0)] 256

/-- Stopped instance with pitch 40 sounding (witness state for the
amended C1). -/
def gs_c1w : GridSeq :=
  mk_gs { st_play with playing := false, active_notes := fun n => n == 40 }

/-- An eventless 128-sample tick. -/
def in_c1w : TickIn := quiet_in [] 128

-- Concrete states for claim C8

/-- Stopped instance (flag `first_run` clear) whose pattern has step 0,
pitch 36 active: receiving a transport start should, per the claim,
immediately play step 0. -/
def gs_c8 : GridSeq :=
  mk_gs { st_play with
            playing := false
            frame_counter := 999
            grid := fun x y => x == 0 && y == 36 }

/-- A tick carrying one Position event with `speed = 1` (transport
start). -/
def in_c8 : TickIn := quiet_in [InEvent.position none (some 1)] 256

/-- Playing instance with step 0, pitch 36 set, used through
`activate` as the witness of the amended first-tick rule. -/
def gs_c8w : GridSeq :=
  mk_gs { st_play with grid := fun x y => x == 0 && y == 36 }

-- Derived step/mid-step expressions of the playback phase

/-- The step index `(uint8_t)(new_step % sequence_length)` installed by
`sequencer_advance` on a crossing tick. -/
def crossed_step (st : GridSeqState) (n : Nat) : Nat :=
  (st.frame_counter + n) % U64 / st.frames_per_step % st.sequence_length % 256

/-- The state `sequencer_advance` leaves behind on a crossing tick. -/
def advanced (st : GridSeqState) (n : Nat) : GridSeqState :=
  { st with
      frame_counter := (st.frame_counter + n) % U64
      current_step := crossed_step st n }

/-- The mid-step condition of `run()` for a playing, non-first-run
tick: the old step-frame is below `frames_per_step / 2` and the new one
is at or above it. -/
def mid_fire (st : GridSeqState) (n : Nat) : Prop :=
  st.frame_counter % st.frames_per_step < st.frames_per_step / 2 ∧
  st.frames_per_step / 2 ≤ (st.frame_counter + n) % U64 % st.frames_per_step

instance (st : GridSeqState) (n : Nat) : Decidable (mid_fire st n) := by
  unfold mid_fire; infer_instance

/-- The `uint32_t` offset `half_point - old_frame` at which `run()`
stamps the mid-step Note Offs. -/
def mid_offset (st : GridSeqState) (n : Nat) : Nat :=
  ((st.frame_counter + n) % U64 / st.frames_per_step * st.frames_per_step
    + st.frames_per_step / 2 - st.frame_counter) % U32

-- Concrete states for claim C2

/-- Playing instance 10 frames before a step boundary (frame 90 of a
100-frame step) with `grid[1][36]` set. -/
def gs_c2 : GridSeq :=
  mk_gs { st_play with
    frame_counter := 90
    frames_per_step := 100
    grid := fun x y => x == 1 && y == 36 }

/-- An eventless 20-sample tick (crosses the boundary at offset 10). -/
def in_c2 : TickIn := quiet_in [] 20

/-- The Note Off messages (status byte `0x80`) of an emission list. -/
def note_off_events (l : List MidiEv) : List MidiEv :=
  l.filter (fun e => e.2.headD 0 == 0x80)

-- Concrete states for claim C5

/-- Playing instance at frame 40 of a 100-frame step with pitch 36 in
the Active Note Set. -/
def gs_c5 : GridSeq :=
  mk_gs { st_play with
    frame_counter := 40
    frames_per_step := 100
    active_notes := fun n => n == 36 }

/-- An eventless 10-sample tick: it ends exactly at the mid-step frame
50, which is not one of its sample indices. -/
def in_c5 : TickIn := quiet_in [] 10

-- Concrete states for claim C6

/-- Playing instance at frame 100 with `grid[0][36]` set and previous
editor x-coordinate 0 (so a −300 write is a fresh transition). -/
def gs_c6 : GridSeq :=
  { mk_gs { st_play with
      frame_counter := 100
      grid := fun x y => x == 0 && y == 36 } with prev_grid_x := 0 }

/-- A 256-sample tick whose editor coordinate ports carry the −300
(clear-pattern) sentinel. -/
def in_c6 : TickIn :=
  { n_samples := 256
    events := []
    grid_x := some (-300)
    grid_y := some 0
    sequence_length_port := none
    midi_filter := none }

/-- Playing instance at frame 100 with disconnected ports (witness for
the amended C6). -/
def gs_c6w : GridSeq := mk_gs { st_play with frame_counter := 100 }

-- Concrete state for claim C9

/-- Playing instance whose only active cell is `grid[4][39]` — with
`pitch_offset = 36` this is viewport row 3 of column 4. -/
def gs_c9 : GridSeq :=
  mk_gs { st_play with grid := fun x y => x == 4 && y == 39 }

-- Concrete state for claim C4

/-- Playing instance with an empty pattern used as the C4 witness
target (pad note 45 decodes to pad (4,3); with `pitch_offset = 36` it
toggles `grid[4][39]`). -/
def gs_c4 : GridSeq := mk_gs st_play

/-- A tick carrying the pad press `90 2D 7F` (Note On, note 45,
velocity 127). -/
def in_c4 : TickIn := quiet_in [InEvent.midi [0x90, 45, 127]] 64

-- Concrete states for claim C7

/-- First C7 tick: a 16-step length write together with a CC 94 (right
arrow) press, legitimately entering hardware page 1. -/
def in_c7a : TickIn :=
  { n_samples := 64
    events := [InEvent.midi [0xB0, 94, 127]]
    grid_x := none
    grid_y := none
    sequence_length_port := some 16
    midi_filter := none }

/-- Second C7 tick: the length port now carries 4 while the device sits
on page 1. -/
def in_c7b : TickIn :=
  { n_samples := 64
    events := []
    grid_x := none
    grid_y := none
    sequence_length_port := some 4
    midi_filter := none }

/-- Page-0 instance with the default 8-step length (witness state for
the amended C7). -/
def gs_c7w : GridSeq := mk_gs st_play

-- Concrete states for claims C10 and C3

/-- Instance sitting at the topmost pitch window (`pitch_offset =
120`), the edge of the claimed range. -/
def gs_c10 : GridSeq := mk_gs { st_play with pitch_offset := 120 }

/-- Instance with a 1 Hz sample rate and 30 frames per step (witness
state for the amended C3; the witness tempo 60 BPM satisfies
`bpm ≤ 60·sample_rate`). -/
def gs_c3 : GridSeq :=
  mk_gs { st_play with sample_rate := 1, frames_per_step := 30 }

/-- A tick carrying a 60 BPM tempo update. -/
def in_c3w : TickIn := quiet_in [InEvent.position (some 60) none] 64

/-- A tick carrying a 4 000 000 BPM tempo update (positive, but above
`60 · sample_rate` for a 48 kHz instance). -/
def in_c3 : TickIn := quiet_in [InEvent.position (some 4000000) none] 64

-- ### Basic projection and preservation lemmas

theorem run_eq_early {gs : GridSeq} {inp : TickIn} {g : GridSeq}
    (h : pre_playback gs inp = Sum.inl g) : run gs inp = (g, early_out) := by
  unfold run; rw [h]

theorem run_eq_main {gs : GridSeq} {inp : TickIn} {g : GridSeq}
    (h : pre_playback gs inp = Sum.inr g) :
    run gs inp = run_main g inp.n_samples (filter_enabled inp.midi_filter) := by
  unfold run; rw [h]

theorem process_step_proj (st : GridSeqState) (o : Nat) :
    (sequencer_process_step st o).1.frame_counter = st.frame_counter ∧
    (sequencer_process_step st o).1.frames_per_step = st.frames_per_step ∧
    (sequencer_process_step st o).1.current_step = st.current_step ∧
    (sequencer_process_step st o).1.grid = st.grid ∧
    (sequencer_process_step st o).1.playing = st.playing ∧
    (sequencer_process_step st o).1.first_run = st.first_run ∧
    (sequencer_process_step st o).1.pitch_offset = st.pitch_offset ∧
    (sequencer_process_step st o).1.sequence_length = st.sequence_length ∧
    (sequencer_process_step st o).1.hardware_page = st.hardware_page ∧
    (sequencer_process_step st o).1.base_note = st.base_note ∧
    (sequencer_process_step st o).1.sample_rate = st.sample_rate :=
  ⟨rfl, rfl, rfl, rfl, rfl, rfl, rfl, rfl, rfl, rfl, rfl⟩

theorem note_offs_proj (st : GridSeqState) (o : Nat) :
    (sequencer_process_note_offs st o).1.frame_counter = st.frame_counter ∧
    (sequencer_process_note_offs st o).1.frames_per_step = st.frames_per_step ∧
    (sequencer_process_note_offs st o).1.current_step = st.current_step ∧
    (sequencer_process_note_offs st o).1.grid = st.grid ∧
    (sequencer_process_note_offs st o).1.playing = st.playing ∧
    (sequencer_process_note_offs st o).1.first_run = st.first_run ∧
    (sequencer_process_note_offs st o).1.pitch_offset = st.pitch_offset ∧
    (sequencer_process_note_offs st o).1.sequence_length = st.sequence_length ∧
    (sequencer_process_note_offs st o).1.hardware_page = st.hardware_page ∧
    (sequencer_process_note_offs st o).1.base_note = st.base_note :=
  ⟨rfl, rfl, rfl, rfl, rfl, rfl, rfl, rfl, rfl, rfl⟩

theorem advance_proj (st : GridSeqState) (n : Nat) :
    (sequencer_advance st n).1.frames_per_step = st.frames_per_step ∧
    (sequencer_advance st n).1.grid = st.grid ∧
    (sequencer_advance st n).1.playing = st.playing ∧
    (sequencer_advance st n).1.first_run = st.first_run ∧
    (sequencer_advance st n).1.pitch_offset = st.pitch_offset ∧
    (sequencer_advance st n).1.sequence_length = st.sequence_length ∧
    (sequencer_advance st n).1.hardware_page = st.hardware_page ∧
    (sequencer_advance st n).1.base_note = st.base_note ∧
    (sequencer_advance st n).1.active_notes = st.active_notes ∧
    (sequencer_advance st n).1.sample_rate = st.sample_rate := by
  simp only [sequencer_advance]
  split
  · exact ⟨rfl, rfl, rfl, rfl, rfl, rfl, rfl, rfl, rfl, rfl⟩
  · split
    · exact ⟨rfl, rfl, rfl, rfl, rfl, rfl, rfl, rfl, rfl, rfl⟩
    · exact ⟨rfl, rfl, rfl, rfl, rfl, rfl, rfl, rfl, rfl, rfl⟩

theorem advance_not_playing {st : GridSeqState} (n : Nat) (h : st.playing = false) :
    sequencer_advance st n = (st, false) := by
  simp only [sequencer_advance, h, Bool.not_false, if_true]

theorem advance_frame_playing {st : GridSeqState} (n : Nat) (h : st.playing = true) :
    (sequencer_advance st n).1.frame_counter = (st.frame_counter + n) % U64 := by
  simp only [sequencer_advance, h, Bool.not_true, Bool.false_eq_true, if_false]
  split <;> rfl

theorem on_phase_proj (st : GridSeqState) (n : Nat) :
    (on_phase st n).1.frames_per_step = st.frames_per_step ∧
    (on_phase st n).1.grid = st.grid ∧
    (on_phase st n).1.playing = st.playing ∧
    (on_phase st n).1.pitch_offset = st.pitch_offset ∧
    (on_phase st n).1.sequence_length = st.sequence_length ∧
    (on_phase st n).1.hardware_page = st.hardware_page ∧
    (on_phase st n).1.base_note = st.base_note ∧
    (on_phase st n).1.sample_rate = st.sample_rate := by
  simp only [on_phase]
  split
  · exact ⟨rfl, rfl, rfl, rfl, rfl, rfl, rfl, rfl⟩
  · have h := advance_proj st n
    split
    · exact ⟨h.1, h.2.1, h.2.2.1, h.2.2.2.2.1, h.2.2.2.2.2.1, h.2.2.2.2.2.2.1,
        h.2.2.2.2.2.2.2.1, h.2.2.2.2.2.2.2.2.2⟩
    · exact ⟨h.1, h.2.1, h.2.2.1, h.2.2.2.2.1, h.2.2.2.2.2.1, h.2.2.2.2.2.2.1,
        h.2.2.2.2.2.2.2.1, h.2.2.2.2.2.2.2.2.2⟩

theorem on_phase_first_run {st : GridSeqState} (n : Nat) (h : st.first_run = true) :
    on_phase st n =
      ({ (sequencer_process_step st 0).1 with first_run := false },
        (sequencer_process_step st 0).2, false) := by
  simp only [on_phase, h, if_true]

theorem on_phase_stopped {st : GridSeqState} (n : Nat)
    (hp : st.playing = false) (hf : st.first_run = false) :
    on_phase st n = (st, [], false) := by
  simp only [on_phase, hf, Bool.false_eq_true, if_false, advance_not_playing n hp]

theorem on_phase_frame_unchanged {st : GridSeqState} {n : Nat}
    (h : st.playing = false ∨ st.first_run = true) :
    (on_phase st n).1.frame_counter = st.frame_counter := by
  rcases h with hp | hf
  · by_cases hf : st.first_run = true
    · rw [on_phase_first_run n hf]
      rfl
    · rw [on_phase_stopped n hp (by simpa using hf)]
  · rw [on_phase_first_run n hf]
    rfl


theorem on_phase_frame_playing {st : GridSeqState} (n : Nat)
    (hp : st.playing = true) (hf : st.first_run = false) :
    (on_phase st n).1.frame_counter = (st.frame_counter + n) % U64 := by
  simp only [on_phase, hf, Bool.false_eq_true, if_false]
  split
  · exact advance_frame_playing n hp
  · exact advance_frame_playing n hp

/-- When the Note-On phase leaves the frame counter unchanged (stopped
transport or first-run tick), the mid-step condition cannot fire. -/
theorem playback_no_mid {st : GridSeqState} (n : Nat) (fe : Bool)
    (hfc : (on_phase st n).1.frame_counter = st.frame_counter) :
    playback_phase st n fe = on_phase st n := by
  simp only [playback_phase, hfc, (on_phase_proj st n).1]
  rw [if_neg (by rintro ⟨h1, h2⟩; omega)]

theorem playback_proj (st : GridSeqState) (n : Nat) (fe : Bool) :
    (playback_phase st n fe).1.frames_per_step = st.frames_per_step ∧
    (playback_phase st n fe).1.grid = st.grid ∧
    (playback_phase st n fe).1.playing = st.playing ∧
    (playback_phase st n fe).1.pitch_offset = st.pitch_offset ∧
    (playback_phase st n fe).1.sequence_length = st.sequence_length ∧
    (playback_phase st n fe).1.hardware_page = st.hardware_page ∧
    (playback_phase st n fe).1.base_note = st.base_note ∧
    (playback_phase st n fe).1.frame_counter = (on_phase st n).1.frame_counter ∧
    (playback_phase st n fe).1.current_step = (on_phase st n).1.current_step ∧
    (playback_phase st n fe).1.sample_rate = st.sample_rate := by
  have h := on_phase_proj st n
  simp only [playback_phase]
  split
  · split
    · exact ⟨h.1, h.2.1, h.2.2.1, h.2.2.2.1, h.2.2.2.2.1, h.2.2.2.2.2.1,
        h.2.2.2.2.2.2.1, rfl, rfl, h.2.2.2.2.2.2.2⟩
    · exact ⟨h.1, h.2.1, h.2.2.1, h.2.2.2.1, h.2.2.2.2.1, h.2.2.2.2.2.1,
        h.2.2.2.2.2.2.1, rfl, rfl, h.2.2.2.2.2.2.2⟩
  · exact ⟨h.1, h.2.1, h.2.2.1, h.2.2.2.1, h.2.2.2.2.1, h.2.2.2.2.2.1,
      h.2.2.2.2.2.2.1, rfl, rfl, h.2.2.2.2.2.2.2⟩

theorem run_main_st (g : GridSeq) (n : Nat) (fe : Bool) :
    (run_main g n fe).1.st = (playback_phase g.st n fe).1 := by
  simp only [run_main]
  repeat' split
  all_goals rfl

theorem run_main_midi (g : GridSeq) (n : Nat) (fe : Bool) :
    (run_main g n fe).2.midi_out =
      (if g.launchpad_mode_entered then [] else [(0, enter_sysex)]) ++
        (playback_phase g.st n fe).2.1 := by
  simp only [run_main]
  repeat' split
  all_goals rfl

theorem run_main_step_out (g : GridSeq) (n : Nat) (fe : Bool) :
    (run_main g n fe).2.current_step_out = some g.st.current_step := by
  simp only [run_main]

theorem run_main_changed_out (g : GridSeq) (n : Nat) (fe : Bool) :
    (run_main g n fe).2.grid_changed_out = some (g.grid_change_counter % 1000000) := by
  simp only [run_main]

theorem run_main_rows_out (g : GridSeq) (n : Nat) (fe : Bool) :
    (run_main g n fe).2.rows_out = some (update_grid_row_ports g.st) := by
  simp only [run_main]


-- ### Membership characterisations of the sequencer emissions

theorem mem_process_step_iff {st : GridSeqState} {o : Nat} {e : MidiEv} :
    e ∈ (sequencer_process_step st o).2 ↔
      ∃ y, y < GRID_ROWS ∧ st.grid st.current_step y = true ∧
        e = (o, [0x90, (st.base_note + y) % 256, 100]) := by
  simp only [sequencer_process_step, List.mem_filterMap, List.mem_range,
    Option.ite_none_right_eq_some, Option.some.injEq]
  constructor
  · rintro ⟨y, hy, hg, he⟩
    exact ⟨y, hy, hg, he.symm⟩
  · rintro ⟨y, hy, hg, he⟩
    exact ⟨y, hy, hg, he.symm⟩

theorem process_step_active {st : GridSeqState} {o : Nat} (m : Nat) :
    (sequencer_process_step st o).1.active_notes m =
      (st.active_notes m ||
        (List.range GRID_ROWS).any
          (fun y => st.grid st.current_step y && ((st.base_note + y) % 256 == m))) := rfl

theorem mem_note_offs_iff {st : GridSeqState} {o : Nat} {e : MidiEv} :
    e ∈ (sequencer_process_note_offs st o).2 ↔
      ∃ p, p < 128 ∧ st.active_notes p = true ∧ e = (o, [0x80, p, 0]) := by
  simp only [sequencer_process_note_offs, List.mem_filterMap, List.mem_range,
    Option.ite_none_right_eq_some, Option.some.injEq]
  constructor
  · rintro ⟨p, hp, ha, he⟩
    exact ⟨p, hp, ha, he.symm⟩
  · rintro ⟨p, hp, ha, he⟩
    exact ⟨p, hp, ha, he.symm⟩

-- ### Claim C1

/-- Claim C1 (amended): when a tick's input processing leaves the
transport stopped — as after a Position event whose speed ≤ 0 — and the
`first_run` flag is clear, the tick emits no MIDI events at all (in
particular no Note Off for the pitches in the Active Note Set) and the
sequencer state, the Active Note Set included, is unchanged.  The stop
transition itself does not flush the active notes. -/
theorem c1_stop_tick_emits_nothing (gs : GridSeq) (inp : TickIn) (g : GridSeq)
    (hpre : pre_playback gs inp = Sum.inr g)
    (hplay : g.st.playing = false)
    (hfr : g.st.first_run = false)
    (hmode : g.launchpad_mode_entered = true) :
    (run gs inp).2.midi_out = [] ∧ (run gs inp).1.st = g.st := by
  rw [run_eq_main hpre]
  have hop : on_phase g.st inp.n_samples = (g.st, [], false) :=
    on_phase_stopped _ hplay hfr
  have hpb : playback_phase g.st inp.n_samples (filter_enabled inp.midi_filter)
      = (g.st, [], false) := by
    rw [playback_no_mid _ _ (by rw [hop]), hop]
  constructor
  · rw [run_main_midi, hmode, hpb]
    rfl
  · rw [run_main_st, hpb]

/-- Claim C1 counterexample: a playing instance with pitch 36 in the
Active Note Set receives a Position event with `speed = 0`; the tick
sets `playing = false` but, contrary to the claim, emits no Note Off
(its MIDI output is empty) and pitch 36 is still marked active after
the tick. -/
theorem c1_counterexample :
    gs_c1.st.playing = true ∧ gs_c1.st.active_notes 36 = true ∧
    (run gs_c1 in_c1).1.st.playing = false ∧
    (run gs_c1 in_c1).2.midi_out = [] ∧
    (run gs_c1 in_c1).1.st.active_notes 36 = true := by decide

/-- Witness of `c1_stop_tick_emits_nothing` at a concrete stopped
instance. -/
theorem c1_witness :
    pre_playback gs_c1w in_c1w = Sum.inr gs_c1w ∧
    gs_c1w.st.playing = false ∧ gs_c1w.st.first_run = false ∧
    gs_c1w.launchpad_mode_entered = true ∧
    ((run gs_c1w in_c1w).2.midi_out = [] ∧ (run gs_c1w in_c1w).1.st = gs_c1w.st) :=
  ⟨rfl, rfl, rfl, rfl, c1_stop_tick_emits_nothing gs_c1w in_c1w gs_c1w rfl rfl rfl rfl⟩


-- ### Claim C8

theorem process_grid_controls_no_x (gs : GridSeq) (py : Option ℚ) :
    process_grid_controls gs none py = Sum.inr gs := rfl

/-- Claim C8 (amended): after `activate` — which sets `first_run`,
resets the counters and clears the mode flag — the very first tick
emits step 0's step-start events at offset 0: every event of the tick
(the re-entered programmer sysex included) is stamped at offset 0, a
NoteOn for `base_note + p` is present iff `grid[0][p]` is set, the
`first_run` flag is consumed, and the clock has not advanced.  A
play-start via a transport speed transition does not set `first_run`
and enjoys no such guarantee (see the counterexample). -/
theorem c8_first_tick_after_activate (gs : GridSeq) (inp : TickIn)
    (hev : inp.events = []) (hgx : inp.grid_x = none)
    (hlen : inp.sequence_length_port = none)
    (hbase : gs.st.base_note + GRID_ROWS ≤ 256) :
    (∀ e ∈ (run (activate gs) inp).2.midi_out, e.1 = 0) ∧
    (∀ p, p < GRID_ROWS →
      (((0, [0x90, gs.st.base_note + p, 100]) : MidiEv) ∈ (run (activate gs) inp).2.midi_out
        ↔ gs.st.grid 0 p = true)) ∧
    (run (activate gs) inp).1.st.first_run = false ∧
    (run (activate gs) inp).1.st.frame_counter = 0 := by
  have hpre : pre_playback (activate gs) inp = Sum.inr (activate gs) := by
    simp only [pre_playback, hev, hgx, hlen, List.foldl_nil]
    exact process_grid_controls_no_x _ _
  have hop : on_phase (activate gs).st inp.n_samples =
      ({ (sequencer_process_step (activate gs).st 0).1 with first_run := false },
        (sequencer_process_step (activate gs).st 0).2, false) :=
    on_phase_first_run _ rfl
  have hfc : (on_phase (activate gs).st inp.n_samples).1.frame_counter
      = (activate gs).st.frame_counter := by rw [hop]; rfl
  have hpb := @playback_no_mid (activate gs).st inp.n_samples
    (filter_enabled inp.midi_filter) hfc
  rw [run_eq_main hpre]
  have hmid : (run_main (activate gs) inp.n_samples
        (filter_enabled inp.midi_filter)).2.midi_out
      = (0, enter_sysex) :: (sequencer_process_step (activate gs).st 0).2 := by
    rw [run_main_midi, hpb, hop]; rfl
  have hst : (run_main (activate gs) inp.n_samples
        (filter_enabled inp.midi_filter)).1.st
      = { (sequencer_process_step (activate gs).st 0).1 with first_run := false } := by
    rw [run_main_st, hpb, hop]
  refine ⟨?_, ?_, ?_, ?_⟩
  · intro e he
    rw [hmid] at he
    rcases List.mem_cons.mp he with h | h
    · rw [h]
    · obtain ⟨y, _, _, he⟩ := mem_process_step_iff.mp h
      rw [he]
  · intro p hp
    have hab : (activate gs).st.base_note = gs.st.base_note := rfl
    have hag : (activate gs).st.grid = gs.st.grid := rfl
    have has : (activate gs).st.current_step = 0 := rfl
    rw [hmid]
    constructor
    · intro hm
      rcases List.mem_cons.mp hm with h | h
      · simp [enter_sysex] at h
      · obtain ⟨y, hy, hg, he⟩ := mem_process_step_iff.mp h
        rw [hag, has] at hg
        rw [hab] at he
        have hby : (gs.st.base_note + y) % 256 = gs.st.base_note + y :=
          Nat.mod_eq_of_lt (lt_of_lt_of_le (Nat.add_lt_add_left hy _) hbase)
        rw [hby] at he
        simp only [Prod.mk.injEq, List.cons.injEq, and_true, true_and] at he
        have hyp : y = p := by omega
        rw [← hyp]
        exact hg
    · intro hg
      apply List.mem_cons_of_mem
      apply mem_process_step_iff.mpr
      refine ⟨p, hp, hg, ?_⟩
      show (0, [0x90, gs.st.base_note + p, 100])
        = ((0, [0x90, (gs.st.base_note + p) % 256, 100]) : MidiEv)
      have hby : (gs.st.base_note + p) % 256 = gs.st.base_note + p :=
        Nat.mod_eq_of_lt (lt_of_lt_of_le (Nat.add_lt_add_left hp _) hbase)
      rw [hby]
  · rw [hst]
  · rw [hst]
    rfl

/-- Claim C8 counterexample: a stopped instance (its `first_run` flag
long consumed) with `grid[0][36]` set receives a transport play-start
(`speed = 1`): the counters are reset and playing resumes, but the
tick emits nothing — step 0's NoteOns do not appear at offset 0 (they
only appear at the first boundary crossing), contradicting the "whether
via activate or via a transport speed transition" part of the claim. -/
theorem c8_counterexample :
    gs_c8.st.playing = false ∧ gs_c8.st.grid 0 36 = true ∧
    (run gs_c8 in_c8).1.st.playing = true ∧
    (run gs_c8 in_c8).1.st.frame_counter = 256 ∧
    (run gs_c8 in_c8).2.midi_out = [] := by decide

/-- Witness of `c8_first_tick_after_activate` at a concrete pattern. -/
theorem c8_witness :
    gs_c8w.st.base_note + GRID_ROWS ≤ 256 ∧
    ((∀ e ∈ (run (activate gs_c8w) (quiet_in [] 256)).2.midi_out, e.1 = 0) ∧
     (∀ p, p < GRID_ROWS →
       (((0, [0x90, gs_c8w.st.base_note + p, 100]) : MidiEv)
           ∈ (run (activate gs_c8w) (quiet_in [] 256)).2.midi_out
         ↔ gs_c8w.st.grid 0 p = true)) ∧
     (run (activate gs_c8w) (quiet_in [] 256)).1.st.first_run = false ∧
     (run (activate gs_c8w) (quiet_in [] 256)).1.st.frame_counter = 0) :=
  ⟨by decide,
    c8_first_tick_after_activate gs_c8w (quiet_in [] 256) rfl rfl rfl (by decide)⟩


-- ### Crossing-path lemmas for the playback phase

theorem advance_crossing {st : GridSeqState} {n : Nat}
    (hp : st.playing = true)
    (hne : (st.frame_counter + n) % U64 / st.frames_per_step
      ≠ st.frame_counter / st.frames_per_step) :
    sequencer_advance st n = (advanced st n, true) := by
  have hg : (!st.playing) = false := by rw [hp]; rfl
  simp only [sequencer_advance, hg, Bool.false_eq_true, if_false]
  rw [if_pos hne]
  rfl

theorem on_phase_crossing {st : GridSeqState} {n : Nat}
    (hp : st.playing = true) (hf : st.first_run = false)
    (hne : (st.frame_counter + n) % U64 / st.frames_per_step
      ≠ st.frame_counter / st.frames_per_step) :
    on_phase st n =
      ((sequencer_process_step (advanced st n) 0).1,
        (sequencer_process_step (advanced st n) 0).2, true) := by
  simp only [on_phase, hf, Bool.false_eq_true, if_false, advance_crossing hp hne]
  rfl

/-- With the transport playing and `first_run` clear, a tick on which
the mid-step condition does not hold (or on which the MIDI filter is
enabled) contributes exactly the Note-On phase. -/
theorem playback_on_phase_only {st : GridSeqState} {n : Nat} {fe : Bool}
    (hp : st.playing = true) (hf : st.first_run = false)
    (h : ¬ mid_fire st n ∨ fe = true) :
    playback_phase st n fe = on_phase st n := by
  have hfc := on_phase_frame_playing n hp hf
  have hfps := (on_phase_proj st n).1
  simp only [playback_phase, hfc, hfps]
  rcases h with h | h
  · have h' : ¬ (st.frame_counter % st.frames_per_step < st.frames_per_step / 2 ∧
        st.frames_per_step / 2 ≤ (st.frame_counter + n) % U64 % st.frames_per_step) := h
    rw [if_neg h']
  · rw [h]
    split
    · rfl
    · rfl

/-- With the transport playing, `first_run` clear, the filter disabled
and the mid-step condition holding, the tick is the Note-On phase
followed by `sequencer_process_note_offs` at `mid_offset`. -/
theorem playback_mid {st : GridSeqState} {n : Nat}
    (hp : st.playing = true) (hf : st.first_run = false)
    (hm : mid_fire st n) :
    playback_phase st n false =
      ((sequencer_process_note_offs (on_phase st n).1 (mid_offset st n)).1,
        (on_phase st n).2.1
          ++ (sequencer_process_note_offs (on_phase st n).1 (mid_offset st n)).2,
        (on_phase st n).2.2) := by
  have hfc := on_phase_frame_playing n hp hf
  have hfps := (on_phase_proj st n).1
  have hm' : st.frame_counter % st.frames_per_step < st.frames_per_step / 2 ∧
      st.frames_per_step / 2 ≤ (st.frame_counter + n) % U64 % st.frames_per_step := hm
  simp only [playback_phase, hfc, hfps]
  rw [if_pos hm']
  rfl

theorem mem_process_step_noteon {st : GridSeqState} {o : Nat}
    (hbase : st.base_note + GRID_ROWS ≤ 256) (p : Nat) (hp : p < GRID_ROWS) :
    (((o, [0x90, st.base_note + p, 100]) : MidiEv) ∈ (sequencer_process_step st o).2)
      ↔ st.grid st.current_step p = true := by
  rw [mem_process_step_iff]
  constructor
  · rintro ⟨y, hy, hg, he⟩
    have hby : (st.base_note + y) % 256 = st.base_note + y :=
      Nat.mod_eq_of_lt (lt_of_lt_of_le (Nat.add_lt_add_left hy _) hbase)
    rw [hby] at he
    simp only [Prod.mk.injEq, List.cons.injEq, and_true, true_and] at he
    have : y = p := by omega
    rw [← this]
    exact hg
  · intro hg
    refine ⟨p, hp, hg, ?_⟩
    have hby : (st.base_note + p) % 256 = st.base_note + p :=
      Nat.mod_eq_of_lt (lt_of_lt_of_le (Nat.add_lt_add_left hp _) hbase)
    rw [hby]

theorem noteon_not_mem_offs {st : GridSeqState} {o o' b v : Nat} :
    (((o', [0x90, b, v]) : MidiEv) ∈ (sequencer_process_note_offs st o).2) → False := by
  intro h
  obtain ⟨p, _, _, he⟩ := mem_note_offs_iff.mp h
  simp at he

-- ### Claim C2

/-- Claim C2 (amended): on a step-start crossing tick the code emits,
for every pitch `p` with `grid[current_step'][p]` set (where
`current_step'` is the post-advance step), a NoteOn on channel 0 with
velocity 100 — but with note number `base_note + p` (the state's
`base_note`, 36 after `state_init`, is added to the already absolute
row index) and timestamped at offset 0, not at the crossing offset δ:
`run()` passes a literal 0 to `sequencer_process_step`.  No NoteOn is
emitted for pitches whose cell is false, and `base_note + p` is marked
in the Active Note Set (it is cleared again within the same tick if the
mid-step crossing also falls in it). -/
theorem c2_step_crossing (gs : GridSeq) (inp : TickIn) (g : GridSeq)
    (hpre : pre_playback gs inp = Sum.inr g)
    (hmode : g.launchpad_mode_entered = true)
    (hplay : g.st.playing = true) (hfr : g.st.first_run = false)
    (hnof : g.st.frame_counter + inp.n_samples < U64)
    (hcross : g.st.frame_counter / g.st.frames_per_step
      ≠ (g.st.frame_counter + inp.n_samples) / g.st.frames_per_step)
    (hbase : g.st.base_note + GRID_ROWS ≤ 256) :
    (run gs inp).1.st.current_step = crossed_step g.st inp.n_samples ∧
    (∀ p, p < GRID_ROWS →
      ((((0, [0x90, g.st.base_note + p, 100]) : MidiEv) ∈ (run gs inp).2.midi_out)
        ↔ g.st.grid (crossed_step g.st inp.n_samples) p = true)) ∧
    (∀ off b v, (((off, [0x90, b, v]) : MidiEv) ∈ (run gs inp).2.midi_out) → off = 0) ∧
    (¬ mid_fire g.st inp.n_samples →
      ∀ p, p < GRID_ROWS → g.st.grid (crossed_step g.st inp.n_samples) p = true →
        (run gs inp).1.st.active_notes (g.st.base_note + p) = true) := by
  have hne : (g.st.frame_counter + inp.n_samples) % U64 / g.st.frames_per_step
      ≠ g.st.frame_counter / g.st.frames_per_step := by
    rw [Nat.mod_eq_of_lt hnof]
    exact fun h => hcross h.symm
  have hop := on_phase_crossing hplay hfr hne
  have hAbase : (advanced g.st inp.n_samples).base_note = g.st.base_note := rfl
  have hAgrid : (advanced g.st inp.n_samples).grid = g.st.grid := rfl
  have hAstep : (advanced g.st inp.n_samples).current_step
      = crossed_step g.st inp.n_samples := rfl
  rw [run_eq_main hpre]
  set fe := filter_enabled inp.midi_filter with hfe
  have honoteon : ∀ p, p < GRID_ROWS →
      ((((0, [0x90, g.st.base_note + p, 100]) : MidiEv)
          ∈ (on_phase g.st inp.n_samples).2.1)
        ↔ g.st.grid (crossed_step g.st inp.n_samples) p = true) := by
    intro p hp
    rw [hop]
    show (((0, [0x90, g.st.base_note + p, 100]) : MidiEv)
        ∈ (sequencer_process_step (advanced g.st inp.n_samples) 0).2)
      ↔ g.st.grid (crossed_step g.st inp.n_samples) p = true
    rw [← hAbase, ← hAstep, ← hAgrid]
    exact mem_process_step_noteon (by rw [hAbase]; exact hbase) p hp
  by_cases hm : mid_fire g.st inp.n_samples ∧ fe = false
  · -- mid-step Note Offs fire after the Note Ons
    have hpb := playback_mid hplay hfr hm.1
    rw [hm.2] at hfe ⊢
    have hmid : (run_main g inp.n_samples false).2.midi_out
        = (on_phase g.st inp.n_samples).2.1
          ++ (sequencer_process_note_offs (on_phase g.st inp.n_samples).1
                (mid_offset g.st inp.n_samples)).2 := by
      rw [run_main_midi, hmode, hpb]
      rfl
    refine ⟨?_, ?_, ?_, ?_⟩
    · rw [run_main_st, hpb]
      have : (sequencer_process_note_offs (on_phase g.st inp.n_samples).1
          (mid_offset g.st inp.n_samples)).1.current_step
          = (on_phase g.st inp.n_samples).1.current_step := (note_offs_proj _ _).2.2.1
      rw [this, hop]
      exact hAstep
    · intro p hp
      rw [hmid, List.mem_append]
      constructor
      · rintro (h | h)
        · exact (honoteon p hp).mp h
        · exact absurd h (fun hh => noteon_not_mem_offs hh)
      · intro hg
        exact Or.inl ((honoteon p hp).mpr hg)
    · intro off b v hmem
      rw [hmid, List.mem_append] at hmem
      rcases hmem with h | h
      · rw [hop] at h
        obtain ⟨y, _, _, he⟩ := mem_process_step_iff.mp h
        simp only [Prod.mk.injEq, List.cons.injEq] at he
        exact he.1
      · exact absurd h (fun hh => noteon_not_mem_offs hh)
    · intro hnm
      exact absurd hm.1 hnm
  · -- no Note Offs: the playback is the Note-On phase alone
    have h' : ¬ mid_fire g.st inp.n_samples ∨ fe = true := by
      by_cases h1 : mid_fire g.st inp.n_samples
      · by_cases h2 : fe = true
        · exact Or.inr h2
        · have h3 : fe = false := by revert h2; cases fe <;> simp
          exact absurd ⟨h1, h3⟩ hm
      · exact Or.inl h1
    have hpb := playback_on_phase_only hplay hfr h'
    have hmid : (run_main g inp.n_samples fe).2.midi_out
        = (on_phase g.st inp.n_samples).2.1 := by
      rw [run_main_midi, hmode, hpb]
      rfl
    refine ⟨?_, ?_, ?_, ?_⟩
    · rw [run_main_st, hpb, hop]
      exact hAstep
    · intro p hp
      rw [hmid]
      exact honoteon p hp
    · intro off b v hmem
      rw [hmid] at hmem
      rw [hop] at hmem
      obtain ⟨y, _, _, he⟩ := mem_process_step_iff.mp hmem
      simp only [Prod.mk.injEq, List.cons.injEq] at he
      exact he.1
    · intro hnm p hp hg
      rw [run_main_st, hpb, hop]
      show (sequencer_process_step (advanced g.st inp.n_samples) 0).1.active_notes
        (g.st.base_note + p) = true
      rw [process_step_active]
      have hany : (List.range GRID_ROWS).any
          (fun y => (advanced g.st inp.n_samples).grid
              (advanced g.st inp.n_samples).current_step y
            && (((advanced g.st inp.n_samples).base_note + y) % 256
                  == g.st.base_note + p)) = true := by
        rw [List.any_eq_true]
        refine ⟨p, List.mem_range.mpr hp, ?_⟩
        rw [hAgrid, hAstep, hAbase]
        have hby : (g.st.base_note + p) % 256 = g.st.base_note + p :=
          Nat.mod_eq_of_lt (lt_of_lt_of_le (Nat.add_lt_add_left hp _) hbase)
        rw [hg, hby]
        simp
      rw [hany]
      simp

/-- Claim C2 counterexample: with `frames_per_step = 100`, frame 90 and
a 20-sample tick, the step boundary is crossed at offset δ = 10 into
step 1, whose only active cell is pitch 36; the claim requires
`NoteOn(note 36, vel 100)` timestamped at offset 10, but the tick's
MIDI output is exactly one NoteOn with note 72 (= base_note 36 + 36) at
offset 0, and the claimed event is absent. -/
theorem c2_counterexample :
    gs_c2.st.grid 1 36 = true ∧
    (gs_c2.st.frame_counter / gs_c2.st.frames_per_step + 1)
        * gs_c2.st.frames_per_step - gs_c2.st.frame_counter = 10 ∧
    (run gs_c2 in_c2).1.st.current_step = 1 ∧
    (run gs_c2 in_c2).2.midi_out = [(0, [0x90, 72, 100])] ∧
    ¬ (((10, [0x90, 36, 100]) : MidiEv) ∈ (run gs_c2 in_c2).2.midi_out) := by decide

/-- Witness of `c2_step_crossing` at the concrete crossing tick. -/
theorem c2_witness :
    gs_c2.st.playing = true ∧
    gs_c2.st.frame_counter / gs_c2.st.frames_per_step
      ≠ (gs_c2.st.frame_counter + in_c2.n_samples) / gs_c2.st.frames_per_step ∧
    ((run gs_c2 in_c2).1.st.current_step = crossed_step gs_c2.st in_c2.n_samples ∧
     (∀ p, p < GRID_ROWS →
       ((((0, [0x90, gs_c2.st.base_note + p, 100]) : MidiEv) ∈ (run gs_c2 in_c2).2.midi_out)
         ↔ gs_c2.st.grid (crossed_step gs_c2.st in_c2.n_samples) p = true)) ∧
     (∀ off b v, (((off, [0x90, b, v]) : MidiEv) ∈ (run gs_c2 in_c2).2.midi_out) → off = 0) ∧
     (¬ mid_fire gs_c2.st in_c2.n_samples →
       ∀ p, p < GRID_ROWS → gs_c2.st.grid (crossed_step gs_c2.st in_c2.n_samples) p = true →
         (run gs_c2 in_c2).1.st.active_notes (gs_c2.st.base_note + p) = true)) :=
  ⟨rfl, by decide,
    c2_step_crossing gs_c2 in_c2 gs_c2 rfl rfl rfl rfl (by decide) (by decide) (by decide)⟩


-- ### Claim C5

theorem on_phase_events_head {st : GridSeqState} {n : Nat} {e : MidiEv}
    (he : e ∈ (on_phase st n).2.1) : e.2.headD 0 = 0x90 := by
  simp only [on_phase] at he
  split at he
  · obtain ⟨y, _, _, he'⟩ := mem_process_step_iff.mp he
    rw [he']
    rfl
  · split at he
    · obtain ⟨y, _, _, he'⟩ := mem_process_step_iff.mp he
      rw [he']
      rfl
    · simp at he

theorem note_off_events_on_phase (st : GridSeqState) (n : Nat) :
    note_off_events (on_phase st n).2.1 = [] := by
  rw [note_off_events, List.filter_eq_nil_iff]
  intro e he
  rw [on_phase_events_head he]
  decide

theorem note_off_events_offs (st : GridSeqState) (o : Nat) :
    note_off_events (sequencer_process_note_offs st o).2
      = (sequencer_process_note_offs st o).2 := by
  rw [note_off_events, List.filter_eq_self]
  intro e he
  obtain ⟨p, _, _, he'⟩ := mem_note_offs_iff.mp he
  rw [he']
  rfl

/-- Claim C5 (amended): with the MIDI filter disabled, a playing,
non-first-run tick emits Note Offs iff `f0 mod L < ⌊L/2⌋` and
`(f0 + n) mod L ≥ ⌊L/2⌋` (`f0` = frame counter at tick start, `L` =
`frames_per_step`) — not iff the tick contains the sample index
`⌊f0/L⌋·L + ⌊L/2⌋`.  When it fires it emits `NoteOff(0x80, p, 0)` for
every `p < 128` active after the Note-On phase, at the single offset
`⌊(f0+n)/L⌋·L + ⌊L/2⌋ − f0` (computed from the post-advance step, so a
tick that also crosses a step boundary stamps the Note Offs at the new
step's midpoint), and exactly those entries are cleared. -/
theorem c5_mid_step (gs : GridSeq) (inp : TickIn) (g : GridSeq)
    (hpre : pre_playback gs inp = Sum.inr g)
    (hmode : g.launchpad_mode_entered = true)
    (hplay : g.st.playing = true) (hfr : g.st.first_run = false)
    (hfe : filter_enabled inp.midi_filter = false) :
    note_off_events (run gs inp).2.midi_out =
      (if mid_fire g.st inp.n_samples then
        (List.range 128).filterMap (fun p =>
          if (on_phase g.st inp.n_samples).1.active_notes p then
            some (mid_offset g.st inp.n_samples, [0x80, p, 0]) else none)
       else []) ∧
    (∀ p, p < 128 →
      (run gs inp).1.st.active_notes p =
        (if mid_fire g.st inp.n_samples then false
         else (on_phase g.st inp.n_samples).1.active_notes p)) := by
  rw [run_eq_main hpre, hfe]
  by_cases hm : mid_fire g.st inp.n_samples
  · have hpb := playback_mid hplay hfr hm
    constructor
    · rw [if_pos hm]
      rw [run_main_midi, hmode, hpb]
      show note_off_events ((on_phase g.st inp.n_samples).2.1
        ++ (sequencer_process_note_offs (on_phase g.st inp.n_samples).1
              (mid_offset g.st inp.n_samples)).2) = _
      rw [note_off_events] at *
      rw [List.filter_append]
      rw [show ((on_phase g.st inp.n_samples).2.1.filter
            (fun e => e.2.headD 0 == 0x80)) = [] from note_off_events_on_phase _ _]
      rw [show ((sequencer_process_note_offs (on_phase g.st inp.n_samples).1
              (mid_offset g.st inp.n_samples)).2.filter
            (fun e => e.2.headD 0 == 0x80))
          = (sequencer_process_note_offs (on_phase g.st inp.n_samples).1
              (mid_offset g.st inp.n_samples)).2 from note_off_events_offs _ _]
      rfl
    · intro p hp
      rw [if_pos hm, run_main_st, hpb]
      show (if p < 128 then false
        else (on_phase g.st inp.n_samples).1.active_notes p) = false
      rw [if_pos hp]
  · have hpb := @playback_on_phase_only g.st inp.n_samples false hplay hfr (Or.inl hm)
    constructor
    · rw [if_neg hm]
      rw [run_main_midi, hmode, hpb]
      show note_off_events ([] ++ (on_phase g.st inp.n_samples).2.1) = ([] : List MidiEv)
      rw [List.nil_append]
      exact note_off_events_on_phase _ _
    · intro p hp
      rw [if_neg hm, run_main_st, hpb]

/-- Claim C5 counterexample: with `frames_per_step = 100`, frame 40 and
a 10-sample tick, the mid-step sample index `⌊f0/L⌋·L + L/2 = 50` is
not included in the tick (its samples are 40..49), so the claim demands
no Note Off; but the tick emits `NoteOff(0x80, 36, 0)` at offset 10 —
the code's `%`-based condition fires as soon as the tick *reaches*
frame 50. -/
theorem c5_counterexample :
    gs_c5.st.active_notes 36 = true ∧
    (run gs_c5 in_c5).2.midi_out = [(10, [0x80, 36, 0])] ∧
    ¬ (gs_c5.st.frame_counter ≤
         gs_c5.st.frame_counter / gs_c5.st.frames_per_step * gs_c5.st.frames_per_step
           + gs_c5.st.frames_per_step / 2 ∧
       gs_c5.st.frame_counter / gs_c5.st.frames_per_step * gs_c5.st.frames_per_step
           + gs_c5.st.frames_per_step / 2 < gs_c5.st.frame_counter + in_c5.n_samples) := by
  decide

/-- Witness of `c5_mid_step` at the concrete firing tick. -/
theorem c5_witness :
    gs_c5.st.playing = true ∧ filter_enabled in_c5.midi_filter = false ∧
    (note_off_events (run gs_c5 in_c5).2.midi_out =
      (if mid_fire gs_c5.st in_c5.n_samples then
        (List.range 128).filterMap (fun p =>
          if (on_phase gs_c5.st in_c5.n_samples).1.active_notes p then
            some (mid_offset gs_c5.st in_c5.n_samples, [0x80, p, 0]) else none)
       else []) ∧
     (∀ p, p < 128 →
       (run gs_c5 in_c5).1.st.active_notes p =
         (if mid_fire gs_c5.st in_c5.n_samples then false
          else (on_phase gs_c5.st in_c5.n_samples).1.active_notes p))) :=
  ⟨rfl, rfl, c5_mid_step gs_c5 in_c5 gs_c5 rfl rfl rfl rfl rfl⟩


-- ### Claim C6

/-- Claim C6 (amended): every tick that reaches the playback phase —
i.e. every tick that is not an early-returning editor-sentinel
transition — with the transport playing and `first_run` clear advances
the frame counter by exactly `n_samples` (mod 2^64) and writes the
observable outputs: `current_step` (with its pre-advance value),
`grid_changed`, and all 16 row packings.  A tick that processes a
sentinel transition (gx = −100, −200, −300 or −400) returns before any
of this (see the counterexample). -/
theorem c6_tick_ordering (gs : GridSeq) (inp : TickIn) (g : GridSeq)
    (hpre : pre_playback gs inp = Sum.inr g)
    (hplay : g.st.playing = true) (hfr : g.st.first_run = false) :
    (run gs inp).1.st.frame_counter = (g.st.frame_counter + inp.n_samples) % U64 ∧
    (run gs inp).2.current_step_out = some g.st.current_step ∧
    (run gs inp).2.grid_changed_out = some (g.grid_change_counter % 1000000) ∧
    (run gs inp).2.rows_out = some (update_grid_row_ports g.st) := by
  rw [run_eq_main hpre]
  refine ⟨?_, run_main_step_out _ _ _, run_main_changed_out _ _ _, run_main_rows_out _ _ _⟩
  rw [run_main_st]
  rw [(playback_proj _ _ _).2.2.2.2.2.2.2.1]
  exact on_phase_frame_playing _ hplay hfr

/-- Claim C6 counterexample: a playing tick whose `grid_x` port carries
a fresh −300 sentinel clears the pattern but then returns early: the
clock does not advance (`frame_counter` stays 100 instead of 356) and
neither `current_step` nor the row packings are written, contradicting
"every tick executes the full fixed per-tick ordering … including ticks
in which an editor sentinel transition is processed". -/
theorem c6_counterexample :
    gs_c6.st.playing = true ∧ gs_c6.st.first_run = false ∧
    in_c6.grid_x = some (-300) ∧ gs_c6.prev_grid_x ≠ (-300 : ℚ) ∧
    gs_c6.st.grid 0 36 = true ∧
    (run gs_c6 in_c6).1.st.grid 0 36 = false ∧
    (run gs_c6 in_c6).1.st.frame_counter = 100 ∧
    (run gs_c6 in_c6).2.current_step_out = none ∧
    (run gs_c6 in_c6).2.rows_out = none := by decide

/-- Witness of `c6_tick_ordering` at a quiet playing tick. -/
theorem c6_witness :
    gs_c6w.st.playing = true ∧
    ((run gs_c6w (quiet_in [] 256)).1.st.frame_counter
        = (gs_c6w.st.frame_counter + (quiet_in [] 256).n_samples) % U64 ∧
     (run gs_c6w (quiet_in [] 256)).2.current_step_out = some gs_c6w.st.current_step ∧
     (run gs_c6w (quiet_in [] 256)).2.grid_changed_out
        = some (gs_c6w.grid_change_counter % 1000000) ∧
     (run gs_c6w (quiet_in [] 256)).2.rows_out
        = some (update_grid_row_ports gs_c6w.st)) :=
  ⟨rfl, c6_tick_ordering gs_c6w (quiet_in [] 256) gs_c6w rfl rfl rfl⟩


-- ### Claim C9

theorem foldl_row_testBit (g : Nat → Bool) (l : List Nat) (acc : Nat) (j : Nat) :
    ((l.foldl (fun a y => if g y then a ||| (1 <<< y) else a) acc).testBit j = true)
      ↔ (acc.testBit j = true ∨ (j ∈ l ∧ g j = true)) := by
  induction l generalizing acc with
  | nil => simp
  | cons y l ih =>
    rw [List.foldl_cons, ih]
    have h1 : (1 <<< y).testBit j = decide (y = j) := by
      rw [Nat.shiftLeft_eq, one_mul, Nat.testBit_two_pow]
    by_cases hgy : g y = true
    · rw [if_pos hgy, Nat.testBit_or, h1]
      by_cases hyj : y = j
      · subst hyj
        simp [hgy]
      · simp only [List.mem_cons]
        have : decide (y = j) = false := by simp [hyj]
        rw [this]
        constructor
        · rintro (h | h)
          · exact Or.inl (by simpa using h)
          · exact Or.inr ⟨Or.inr h.1, h.2⟩
        · rintro (h | ⟨h1', h2⟩)
          · exact Or.inl (by simpa using h)
          · rcases h1' with h1' | h1'
            · exact absurd h1'.symm hyj
            · exact Or.inr ⟨h1', h2⟩
    · rw [if_neg hgy]
      simp only [List.mem_cons]
      constructor
      · rintro (h | h)
        · exact Or.inl h
        · exact Or.inr ⟨Or.inr h.1, h.2⟩
      · rintro (h | ⟨h1', h2⟩)
        · exact Or.inl h
        · rcases h1' with h1' | h1'
          · subst h1'
            exact absurd h2 hgy
          · exact Or.inr ⟨h1', h2⟩

theorem update_grid_row_ports_getD (st : GridSeqState) (x : Nat)
    (hx : x < MAX_GRID_SIZE) :
    (update_grid_row_ports st).getD x 0
      = (List.range GRID_VISIBLE_ROWS).foldl
          (fun acc y => if st.grid x ((st.pitch_offset + y) % 256)
                        then acc ||| (1 <<< y) else acc) 0 := by
  rw [update_grid_row_ports, List.getD_eq_getElem?_getD, List.getElem?_map,
    List.getElem?_range hx]
  rfl

/-- Claim C9 (confirmed): whenever a tick writes the 16 row packings
(every tick except the sentinel early returns), bit `y` of the written
`row_x` equals `grid[x][pitch_offset + y]` as both stand after the
tick's edits: the rows are packed after the length port, the event
drain and the editor toggles have been applied, and the playback phase
mutates neither the grid nor `pitch_offset`.  The `pitch_offset`
hypothesis holds for every reachable state by claim C10. -/
theorem c9_rows_bits (gs : GridSeq) (inp : TickIn) (g : GridSeq) (r : List Nat)
    (hpre : pre_playback gs inp = Sum.inr g)
    (hrows : (run gs inp).2.rows_out = some r)
    (hpo : g.st.pitch_offset + GRID_VISIBLE_ROWS ≤ 256) :
    ∀ x, x < MAX_GRID_SIZE → ∀ y, y < GRID_VISIBLE_ROWS →
      (r.getD x 0).testBit y
        = (run gs inp).1.st.grid x ((run gs inp).1.st.pitch_offset + y) := by
  rw [run_eq_main hpre] at hrows ⊢
  rw [run_main_rows_out] at hrows
  have hr : r = update_grid_row_ports g.st := (Option.some.injEq _ _ ▸ hrows).symm
  have hgrid : (run_main g inp.n_samples (filter_enabled inp.midi_filter)).1.st.grid
      = g.st.grid := by
    rw [run_main_st]
    exact (playback_proj _ _ _).2.1
  have hpof : (run_main g inp.n_samples (filter_enabled inp.midi_filter)).1.st.pitch_offset
      = g.st.pitch_offset := by
    rw [run_main_st]
    exact (playback_proj _ _ _).2.2.2.1
  intro x hx y hy
  rw [hgrid, hpof, hr, update_grid_row_ports_getD g.st x hx]
  have hmod : (g.st.pitch_offset + y) % 256 = g.st.pitch_offset + y :=
    Nat.mod_eq_of_lt (lt_of_lt_of_le (Nat.add_lt_add_left hy _) hpo)
  have hiff := foldl_row_testBit
    (fun b => g.st.grid x ((g.st.pitch_offset + b) % 256))
    (List.range GRID_VISIBLE_ROWS) 0 y
  simp only [Nat.zero_testBit, Bool.false_eq_true, false_or, List.mem_range] at hiff
  rw [Bool.eq_iff_iff]
  rw [hiff]
  rw [hmod]
  constructor
  · rintro ⟨_, h⟩
    exact h
  · intro h
    exact ⟨hy, h⟩

/-- Witness of `c9_rows_bits`: with `pitch_offset = 36` and
`grid[4][39]` the only active cell, the written rows are all zero
except `row_4 = 8` (bit 3). -/
theorem c9_witness :
    (run gs_c9 (quiet_in [] 64)).2.rows_out
        = some [0, 0, 0, 0, 8, 0, 0, 0, 0, 0, 0, 0, 0, 0, 0, 0] ∧
    gs_c9.st.pitch_offset + GRID_VISIBLE_ROWS ≤ 256 ∧
    (∀ x, x < MAX_GRID_SIZE → ∀ y, y < GRID_VISIBLE_ROWS →
      (([0, 0, 0, 0, 8, 0, 0, 0, 0, 0, 0, 0, 0, 0, 0, 0] : List Nat).getD x 0).testBit y
        = (run gs_c9 (quiet_in [] 64)).1.st.grid x
            ((run gs_c9 (quiet_in [] 64)).1.st.pitch_offset + y)) :=
  ⟨by decide, by decide,
    c9_rows_bits gs_c9 (quiet_in [] 64) gs_c9
      [0, 0, 0, 0, 8, 0, 0, 0, 0, 0, 0, 0, 0, 0, 0, 0] rfl (by decide) (by decide)⟩


-- ### Claim C4

/-- Claim C4 (confirmed): an incoming Note On (status high nibble 0x9,
velocity > 0) with note number `N ∈ [11, 88]`, decoded to
`x = (N−11) mod 10`, `y = (N−11) / 10`, toggles exactly the cell
`grid[x + 8·hardware_page][pitch_offset + y]` iff `x < 8` (y < 8 is
automatic for N ≤ 88), `x + 8·hardware_page < sequence_length` and
`pitch_offset + y < 128`, and toggles nothing otherwise.  The
`pitch_offset` and `hardware_page` range hypotheses hold in every
reachable state (claims C10 and C7). -/
theorem c4_pad_toggle (gs : GridSeq) (inp : TickIn) (b0 b1 b2 : Nat)
    (hev : inp.events = [InEvent.midi [b0, b1, b2]])
    (hgx : inp.grid_x = none) (hlen : inp.sequence_length_port = none)
    (hst : b0 &&& 0xF0 = 0x90) (hvel : 0 < b2)
    (hn1 : 11 ≤ b1) (hn2 : b1 ≤ 88)
    (hpo : gs.st.pitch_offset ≤ GRID_PITCH_RANGE - GRID_VISIBLE_ROWS)
    (hpage : gs.st.hardware_page ≤ 1) :
    ∀ a b : Nat, (run gs inp).1.st.grid a b =
      if (b1 - 11) % 10 < 8 ∧
         (b1 - 11) % 10 + gs.st.hardware_page * 8 < gs.st.sequence_length ∧
         gs.st.pitch_offset + (b1 - 11) / 10 < GRID_PITCH_RANGE ∧
         a = (b1 - 11) % 10 + gs.st.hardware_page * 8 ∧
         b = gs.st.pitch_offset + (b1 - 11) / 10
      then !gs.st.grid a b else gs.st.grid a b := by
  have hpo' : gs.st.pitch_offset ≤ 120 := by
    simpa [GRID_PITCH_RANGE, GRID_VISIBLE_ROWS] using hpo
  have hy8 : (b1 - 11) / 10 < 8 := by omega
  have hay : ((b1 - 11) / 10 + gs.st.pitch_offset) % 256
      = gs.st.pitch_offset + (b1 - 11) / 10 := by
    rw [Nat.add_comm]
    exact Nat.mod_eq_of_lt (by omega)
  have hay128 : gs.st.pitch_offset + (b1 - 11) / 10 < GRID_PITCH_RANGE := by
    simp only [GRID_PITCH_RANGE]
    omega
  have hpre : pre_playback gs inp
      = Sum.inr (process_event gs (InEvent.midi [b0, b1, b2])) := by
    simp only [pre_playback, hev, hgx, hlen, List.foldl_cons, List.foldl_nil]
    exact process_grid_controls_no_x _ _
  rw [run_eq_main hpre]
  intro a b
  have hgr : (run_main (process_event gs (InEvent.midi [b0, b1, b2])) inp.n_samples
      (filter_enabled inp.midi_filter)).1.st.grid
      = (process_event gs (InEvent.midi [b0, b1, b2])).st.grid := by
    rw [run_main_st]
    exact (playback_proj _ _ _).2.1
  rw [congrFun (congrFun hgr a) b]
  have e0 : ([b0, b1, b2] : List Nat).getD 0 0 = b0 := rfl
  have e1 : ([b0, b1, b2] : List Nat).getD 1 0 = b1 := rfl
  have e2 : ([b0, b1, b2] : List Nat).getD 2 0 = b2 := rfl
  simp only [process_event, e0, e1, e2, lp_note_to_grid]
  rw [if_pos ⟨hst, hvel⟩, if_pos ⟨hn1, hn2⟩]
  by_cases hx8 : (b1 - 11) % 10 < 8
  · rw [if_pos ⟨hx8, hy8⟩]
    by_cases hl : (b1 - 11) % 10 + gs.st.hardware_page * 8 < gs.st.sequence_length
    · rw [if_pos ⟨hl, by rw [hay]; exact hay128⟩]
      show (state_toggle_step gs.st ((b1 - 11) % 10 + gs.st.hardware_page * 8)
        (((b1 - 11) / 10 + gs.st.pitch_offset) % 256)).grid a b = _
      rw [state_toggle_step, if_neg (by
        rintro (hcx | hcy)
        · simp only [MAX_GRID_SIZE] at hcx
          omega
        · rw [hay] at hcy
          simp only [GRID_ROWS] at hcy
          simp only [GRID_PITCH_RANGE] at hay128
          omega)]
      rw [hay]
      show (if a = (b1 - 11) % 10 + gs.st.hardware_page * 8
              ∧ b = gs.st.pitch_offset + (b1 - 11) / 10
            then !gs.st.grid a b else gs.st.grid a b) = _
      by_cases hab : a = (b1 - 11) % 10 + gs.st.hardware_page * 8
          ∧ b = gs.st.pitch_offset + (b1 - 11) / 10
      · rw [if_pos hab, if_pos ⟨hx8, hl, hay128, hab.1, hab.2⟩]
      · rw [if_neg hab, if_neg (fun hc => hab ⟨hc.2.2.2.1, hc.2.2.2.2⟩)]
    · rw [if_neg (fun hc => hl hc.1), if_neg (fun hc => hl hc.2.1)]
  · rw [if_neg (fun hc => hx8 hc.1), if_neg (fun hc => hx8 hc.1)]

/-- Witness of `c4_pad_toggle`: pad press `90 2D 7F` (N = 45, pad
(4,3)) on an empty pattern with `pitch_offset = 36`. -/
theorem c4_witness :
    (45 - 11) % 10 = 4 ∧ (45 - 11) / 10 = 3 ∧
    gs_c4.st.pitch_offset ≤ GRID_PITCH_RANGE - GRID_VISIBLE_ROWS ∧
    (∀ a b : Nat, (run gs_c4 in_c4).1.st.grid a b =
      if (45 - 11) % 10 < 8 ∧
         (45 - 11) % 10 + gs_c4.st.hardware_page * 8 < gs_c4.st.sequence_length ∧
         gs_c4.st.pitch_offset + (45 - 11) / 10 < GRID_PITCH_RANGE ∧
         a = (45 - 11) % 10 + gs_c4.st.hardware_page * 8 ∧
         b = gs_c4.st.pitch_offset + (45 - 11) / 10
      then !gs_c4.st.grid a b else gs_c4.st.grid a b) :=
  ⟨by decide, by decide, by decide,
    c4_pad_toggle gs_c4 in_c4 0x90 45 127 rfl rfl rfl (by decide) (by decide)
      (by decide) (by decide) (by decide) (by decide)⟩


-- ### Claim C7

theorem state_toggle_proj (st : GridSeqState) (x y : Nat) :
    (state_toggle_step st x y).hardware_page = st.hardware_page ∧
    (state_toggle_step st x y).sequence_length = st.sequence_length ∧
    (state_toggle_step st x y).pitch_offset = st.pitch_offset ∧
    (state_toggle_step st x y).playing = st.playing ∧
    (state_toggle_step st x y).first_run = st.first_run ∧
    (state_toggle_step st x y).frame_counter = st.frame_counter ∧
    (state_toggle_step st x y).frames_per_step = st.frames_per_step ∧
    (state_toggle_step st x y).sample_rate = st.sample_rate ∧
    (state_toggle_step st x y).active_notes = st.active_notes ∧
    (state_toggle_step st x y).base_note = st.base_note := by
  rw [state_toggle_step]
  split <;> exact ⟨rfl, rfl, rfl, rfl, rfl, rfl, rfl, rfl, rfl, rfl⟩

theorem update_tempo_proj (st : GridSeqState) (bpm : ℚ) :
    (state_update_tempo st bpm).hardware_page = st.hardware_page ∧
    (state_update_tempo st bpm).sequence_length = st.sequence_length ∧
    (state_update_tempo st bpm).pitch_offset = st.pitch_offset ∧
    (state_update_tempo st bpm).sample_rate = st.sample_rate ∧
    (state_update_tempo st bpm).grid = st.grid := by
  rw [state_update_tempo]
  split <;> exact ⟨rfl, rfl, rfl, rfl, rfl⟩

theorem process_event_page0 (gs : GridSeq) (ev : InEvent)
    (h0 : gs.st.hardware_page = 0) (hl : gs.st.sequence_length ≤ 8) :
    (process_event gs ev).st.hardware_page = 0 ∧
    (process_event gs ev).st.sequence_length ≤ 8 := by
  cases ev with
  | other => exact ⟨h0, hl⟩
  | position bpm speed =>
      cases bpm with
      | none =>
          cases speed with
          | none => exact ⟨h0, hl⟩
          | some v =>
              simp only [process_event]
              repeat' split
              all_goals exact ⟨h0, hl⟩
      | some b =>
          cases speed with
          | none =>
              simp only [process_event]
              repeat' split
              all_goals first
                | exact ⟨h0, hl⟩
                | exact ⟨by show (state_update_tempo gs.st b).hardware_page = 0
                            rw [(update_tempo_proj gs.st b).1]; exact h0,
                    by show (state_update_tempo gs.st b).sequence_length ≤ 8
                       rw [(update_tempo_proj gs.st b).2.1]; exact hl⟩
          | some v =>
              simp only [process_event]
              repeat' split
              all_goals first
                | exact ⟨h0, hl⟩
                | exact ⟨by show (state_update_tempo gs.st b).hardware_page = 0
                            rw [(update_tempo_proj gs.st b).1]; exact h0,
                    by show (state_update_tempo gs.st b).sequence_length ≤ 8
                       rw [(update_tempo_proj gs.st b).2.1]; exact hl⟩
  | midi bytes =>
      simp only [process_event]
      repeat' split
      all_goals first
        | exact ⟨h0, hl⟩
        | exact ⟨by show (state_toggle_step gs.st _ _).hardware_page = 0
                    rw [(state_toggle_proj gs.st _ _).1]; exact h0,
            by show (state_toggle_step gs.st _ _).sequence_length ≤ 8
               rw [(state_toggle_proj gs.st _ _).2.1]; exact hl⟩
        | (exfalso; omega)

theorem controls_page_len (gs : GridSeq) (px py : Option ℚ) :
    (Sum.elim GridSeq.st GridSeq.st (process_grid_controls gs px py)).hardware_page
        = gs.st.hardware_page ∧
    (Sum.elim GridSeq.st GridSeq.st (process_grid_controls gs px py)).sequence_length
        = gs.st.sequence_length := by
  cases px with
  | none => exact ⟨rfl, rfl⟩
  | some x =>
      cases py with
      | none => exact ⟨rfl, rfl⟩
      | some y =>
          simp only [process_grid_controls]
          repeat' split
          all_goals first
            | exact ⟨rfl, rfl⟩
            | exact ⟨by show (state_toggle_step gs.st _ _).hardware_page = gs.st.hardware_page
                        exact (state_toggle_proj gs.st _ _).1,
                by show (state_toggle_step gs.st _ _).sequence_length = gs.st.sequence_length
                   exact (state_toggle_proj gs.st _ _).2.1⟩

theorem read_length_page (gs : GridSeq) (port : Option ℚ) :
    (read_length_port gs port).st.hardware_page = gs.st.hardware_page := by
  cases port with
  | none => rfl
  | some q =>
      simp only [read_length_port]
      split <;> rfl

/-- Claim C7 (amended): hardware page 1 can only be *entered* while
`sequence_length > 8` — a tick whose post-port state sits on page 0
with length ≤ 8 ends on page 0 (CC 94 is the only writer of page 1 and
is guarded by `sequence_length > 8`).  However, writing a length
n ≤ 8 does *not* reset `hardware_page`: the run() length-port read
(launchpad.c lines 564–570) has no page reset, so the invariant
`hardware_page = 1 → sequence_length > 8` fails on reachable states
(see the counterexample). -/
theorem c7_page_entry (gs : GridSeq) (inp : TickIn)
    (h0 : (read_length_port gs inp.sequence_length_port).st.hardware_page = 0)
    (hl : (read_length_port gs inp.sequence_length_port).st.sequence_length ≤ 8) :
    (run gs inp).1.st.hardware_page = 0 := by
  have hfold : ∀ (evs : List InEvent) (g : GridSeq), g.st.hardware_page = 0 → g.st.sequence_length ≤ 8 →
      (evs.foldl process_event g).st.hardware_page = 0 ∧
      (evs.foldl process_event g).st.sequence_length ≤ 8 := by
    intro evs
    induction evs with
    | nil => exact fun g h1 h2 => ⟨h1, h2⟩
    | cons e evs ih =>
        intro g h1 h2
        rw [List.foldl_cons]
        exact ih _ (process_event_page0 g e h1 h2).1 (process_event_page0 g e h1 h2).2
  obtain ⟨hp1, hl1⟩ :=
    hfold inp.events (read_length_port gs inp.sequence_length_port) h0 hl
  have hctr := controls_page_len
    (inp.events.foldl process_event (read_length_port gs inp.sequence_length_port))
    inp.grid_x inp.grid_y
  have hpp : pre_playback gs inp
      = process_grid_controls
          (inp.events.foldl process_event (read_length_port gs inp.sequence_length_port))
          inp.grid_x inp.grid_y := rfl
  rcases h : pre_playback gs inp with gE | gC
  · rw [run_eq_early h]
    rw [hpp] at h
    rw [h] at hctr
    simpa using hctr.1.trans hp1
  · rw [run_eq_main h]
    rw [run_main_st]
    rw [(playback_proj _ _ _).2.2.2.2.2.1]
    rw [hpp] at h
    rw [h] at hctr
    simpa using hctr.1.trans hp1

/-- Claim C7 counterexample: from a fresh instance, set the length to
16 and press CC 94 (entering page 1), then set the length to 4: the
second tick leaves `hardware_page = 1` with `sequence_length = 4`,
violating the claimed invariant — the length write does not reset the
page. -/
theorem c7_counterexample :
    (run (run (instantiate 48000) in_c7a).1 in_c7b).1.st.hardware_page = 1 ∧
    (run (run (instantiate 48000) in_c7a).1 in_c7b).1.st.sequence_length = 4 := by
  decide

/-- Witness of `c7_page_entry` on a quiet page-0 tick. -/
theorem c7_witness :
    (read_length_port gs_c7w (quiet_in [] 64).sequence_length_port).st.hardware_page = 0 ∧
    (read_length_port gs_c7w (quiet_in [] 64).sequence_length_port).st.sequence_length ≤ 8 ∧
    (run gs_c7w (quiet_in [] 64)).1.st.hardware_page = 0 :=
  ⟨by decide, by decide, c7_page_entry gs_c7w (quiet_in [] 64) (by decide) (by decide)⟩


-- ### Claim C10

theorem read_length_proj (gs : GridSeq) (port : Option ℚ) :
    (read_length_port gs port).st.pitch_offset = gs.st.pitch_offset ∧
    (read_length_port gs port).st.frames_per_step = gs.st.frames_per_step ∧
    (read_length_port gs port).st.sample_rate = gs.st.sample_rate := by
  cases port with
  | none => exact ⟨rfl, rfl, rfl⟩
  | some q =>
      simp only [read_length_port]
      split <;> exact ⟨rfl, rfl, rfl⟩

theorem process_event_po (gs : GridSeq) (ev : InEvent)
    (h : gs.st.pitch_offset ≤ 120) :
    (process_event gs ev).st.pitch_offset ≤ 120 := by
  cases ev with
  | other => exact h
  | position bpm speed =>
      cases bpm with
      | none =>
          cases speed with
          | none => exact h
          | some v =>
              simp only [process_event]
              repeat' split
              all_goals exact h
      | some b =>
          cases speed with
          | none =>
              simp only [process_event]
              repeat' split
              all_goals first
                | exact h
                | (show (state_update_tempo gs.st b).pitch_offset ≤ 120
                   rw [(update_tempo_proj gs.st b).2.2.1]; exact h)
          | some v =>
              simp only [process_event]
              repeat' split
              all_goals first
                | exact h
                | (show (state_update_tempo gs.st b).pitch_offset ≤ 120
                   rw [(update_tempo_proj gs.st b).2.2.1]; exact h)
  | midi bytes =>
      simp only [process_event]
      repeat' split
      all_goals first
        | exact h
        | (show (state_toggle_step gs.st _ _).pitch_offset ≤ 120
           rw [(state_toggle_proj gs.st _ _).2.2.1]; exact h)
        | (show gs.st.pitch_offset - 1 ≤ 120
           omega)
        | (show gs.st.pitch_offset + 1 ≤ 120
           simp only [GRID_PITCH_RANGE, GRID_VISIBLE_ROWS] at *
           omega)

theorem controls_po (gs : GridSeq) (px py : Option ℚ)
    (h : gs.st.pitch_offset ≤ 120) :
    (Sum.elim GridSeq.st GridSeq.st (process_grid_controls gs px py)).pitch_offset
      ≤ 120 := by
  cases px with
  | none => exact h
  | some x =>
      cases py with
      | none => exact h
      | some y =>
          simp only [process_grid_controls]
          repeat' split
          all_goals first
            | exact h
            | exact (by decide : (DEFAULT_PITCH_OFFSET : Nat) ≤ 120)
            | (show (state_toggle_step gs.st _ _).pitch_offset ≤ 120
               rw [(state_toggle_proj gs.st _ _).2.2.1]; exact h)

/-- Claim C10 (confirmed): `pitch_offset` starts at 0 (the `memset` in
`state_init`; the `DEFAULT_PITCH_OFFSET` recenter only happens on the
−400 sentinel) and every tick preserves `pitch_offset ≤ 120 =
PITCH_RANGE − VISIBLE_ROWS`: CC 91 decrements only when positive,
CC 92 increments only below 120, the −400 sentinel sets 36, and no
other operation writes it; hence `pitch_offset + y < 128` for every
viewport row `y < 8`. -/
theorem c10_pitch_offset_invariant (sr : ℚ) (gs : GridSeq) (inp : TickIn) :
    (instantiate sr).st.pitch_offset = 0 ∧
    (gs.st.pitch_offset ≤ GRID_PITCH_RANGE - GRID_VISIBLE_ROWS →
      (run gs inp).1.st.pitch_offset ≤ GRID_PITCH_RANGE - GRID_VISIBLE_ROWS) ∧
    (∀ y, y < GRID_VISIBLE_ROWS →
      gs.st.pitch_offset ≤ GRID_PITCH_RANGE - GRID_VISIBLE_ROWS →
      gs.st.pitch_offset + y < GRID_PITCH_RANGE) := by
  refine ⟨rfl, ?_, ?_⟩
  · intro h
    have h' : gs.st.pitch_offset ≤ 120 := by
      simpa [GRID_PITCH_RANGE, GRID_VISIBLE_ROWS] using h
    have h0 : (read_length_port gs inp.sequence_length_port).st.pitch_offset ≤ 120 := by
      rw [(read_length_proj gs inp.sequence_length_port).1]
      exact h'
    have hfold : ∀ (evs : List InEvent) (g : GridSeq), g.st.pitch_offset ≤ 120 →
        (evs.foldl process_event g).st.pitch_offset ≤ 120 := by
      intro evs
      induction evs with
      | nil => exact fun g hg => hg
      | cons e evs ih =>
          intro g hg
          rw [List.foldl_cons]
          exact ih _ (process_event_po g e hg)
    have hp1 := hfold inp.events (read_length_port gs inp.sequence_length_port) h0
    have hctr := controls_po
      (inp.events.foldl process_event (read_length_port gs inp.sequence_length_port))
      inp.grid_x inp.grid_y hp1
    have hpp : pre_playback gs inp
        = process_grid_controls
            (inp.events.foldl process_event (read_length_port gs inp.sequence_length_port))
            inp.grid_x inp.grid_y := rfl
    show (run gs inp).1.st.pitch_offset ≤ GRID_PITCH_RANGE - GRID_VISIBLE_ROWS
    have hgoal : (run gs inp).1.st.pitch_offset ≤ 120 := by
      rcases hh : pre_playback gs inp with gE | gC
      · rw [run_eq_early hh]
        rw [hpp] at hh
        rw [hh] at hctr
        simpa using hctr
      · rw [run_eq_main hh]
        rw [run_main_st, (playback_proj _ _ _).2.2.2.1]
        rw [hpp] at hh
        rw [hh] at hctr
        simpa using hctr
    simpa [GRID_PITCH_RANGE, GRID_VISIBLE_ROWS] using hgoal
  · intro y hy h
    simp only [GRID_PITCH_RANGE, GRID_VISIBLE_ROWS] at *
    omega

/-- Witness of `c10_pitch_offset_invariant` at the range edge
`pitch_offset = 120`. -/
theorem c10_witness :
    (instantiate 48000).st.pitch_offset = 0 ∧
    gs_c10.st.pitch_offset ≤ GRID_PITCH_RANGE - GRID_VISIBLE_ROWS ∧
    (run gs_c10 (quiet_in [] 64)).1.st.pitch_offset
      ≤ GRID_PITCH_RANGE - GRID_VISIBLE_ROWS ∧
    gs_c10.st.pitch_offset + 7 < GRID_PITCH_RANGE :=
  ⟨(c10_pitch_offset_invariant 48000 gs_c10 (quiet_in [] 64)).1,
    by decide,
    (c10_pitch_offset_invariant 48000 gs_c10 (quiet_in [] 64)).2.1 (by decide),
    (c10_pitch_offset_invariant 48000 gs_c10 (quiet_in [] 64)).2.2 7 (by decide) (by decide)⟩

-- ### Claim C3

theorem tempo_frames_pos (sr bpm : ℚ) (hsr : 0 < sr) (hbpm : 0 < bpm)
    (hle : bpm ≤ 60 * sr) : 0 < tempo_frames sr bpm := by
  have hbn : 0 < bpm.num := Rat.num_pos.mpr hbpm
  have hsn : 0 < sr.num := Rat.num_pos.mpr hsr
  have hd1 : (0:ℚ) < (bpm.den : ℚ) := by
    exact_mod_cast Nat.pos_of_ne_zero bpm.den_nz
  have hd2 : (0:ℚ) < (sr.den : ℚ) := by
    exact_mod_cast Nat.pos_of_ne_zero sr.den_nz
  have hle2 : (bpm.num : ℚ) / (bpm.den : ℚ) ≤ (60 * (sr.num : ℚ)) / (sr.den : ℚ) := by
    rw [Rat.num_div_den bpm, mul_div_assoc, Rat.num_div_den sr]
    exact hle
  have key : (bpm.num : ℚ) * (sr.den : ℚ) ≤ 60 * (sr.num : ℚ) * (bpm.den : ℚ) :=
    (div_le_div_iff₀ hd1 hd2).mp hle2
  have keyI : bpm.num * (sr.den : ℤ) ≤ 60 * sr.num * (bpm.den : ℤ) := by
    exact_mod_cast key
  have h1 : ((bpm.num.toNat : ℤ)) = bpm.num := Int.toNat_of_nonneg hbn.le
  have h2 : ((sr.num.toNat : ℤ)) = sr.num := Int.toNat_of_nonneg hsn.le
  have keyN : bpm.num.toNat * sr.den ≤ 60 * sr.num.toNat * bpm.den := by
    have : ((bpm.num.toNat : ℤ)) * (sr.den : ℤ)
        ≤ 60 * ((sr.num.toNat : ℤ)) * (bpm.den : ℤ) := by
      rw [h1, h2]
      exact keyI
    exact_mod_cast this
  rw [tempo_frames]
  refine Nat.div_pos keyN (Nat.mul_pos ?_ (Nat.pos_of_ne_zero sr.den_nz))
  omega

theorem process_event_fps (gs : GridSeq) (ev : InEvent)
    (hsr : 0 < gs.st.sample_rate)
    (hfps : 0 < gs.st.frames_per_step)
    (hb : ∀ b s, ev = InEvent.position (some b) s → b ≤ 60 * gs.st.sample_rate) :
    0 < (process_event gs ev).st.frames_per_step ∧
    (process_event gs ev).st.sample_rate = gs.st.sample_rate := by
  cases ev with
  | other => exact ⟨hfps, rfl⟩
  | midi bytes =>
      simp only [process_event]
      repeat' split
      all_goals first
        | exact ⟨hfps, rfl⟩
        | exact ⟨by show 0 < (state_toggle_step gs.st _ _).frames_per_step
                    rw [(state_toggle_proj gs.st _ _).2.2.2.2.2.2.1]; exact hfps,
            by show (state_toggle_step gs.st _ _).sample_rate = gs.st.sample_rate
               exact (state_toggle_proj gs.st _ _).2.2.2.2.2.2.2.1⟩
  | position bpm speed =>
      cases bpm with
      | none =>
          cases speed with
          | none => exact ⟨hfps, rfl⟩
          | some v =>
              simp only [process_event]
              repeat' split
              all_goals exact ⟨hfps, rfl⟩
      | some b =>
          have hble : b ≤ 60 * gs.st.sample_rate := hb b speed rfl
          cases speed with
          | none =>
              simp only [process_event]
              split
              next hpos =>
                exact ⟨by show 0 < (state_update_tempo gs.st b).frames_per_step
                          rw [state_update_tempo, if_neg (not_le.mpr hpos)]
                          exact tempo_frames_pos _ _ hsr hpos hble,
                  (update_tempo_proj gs.st b).2.2.2.1⟩
              next => exact ⟨hfps, rfl⟩
          | some v =>
              simp only [process_event]
              split
              next hpos =>
                repeat' split
                all_goals exact
                  ⟨by show 0 < (state_update_tempo gs.st b).frames_per_step
                      rw [state_update_tempo, if_neg (not_le.mpr hpos)]
                      exact tempo_frames_pos _ _ hsr hpos hble,
                    (update_tempo_proj gs.st b).2.2.2.1⟩
              next =>
                repeat' split
                all_goals exact ⟨hfps, rfl⟩

theorem controls_fps (gs : GridSeq) (px py : Option ℚ) :
    (Sum.elim GridSeq.st GridSeq.st (process_grid_controls gs px py)).frames_per_step
        = gs.st.frames_per_step := by
  cases px with
  | none => rfl
  | some x =>
      cases py with
      | none => rfl
      | some y =>
          simp only [process_grid_controls]
          repeat' split
          all_goals first
            | rfl
            | (show (state_toggle_step gs.st _ _).frames_per_step = gs.st.frames_per_step
               exact (state_toggle_proj gs.st _ _).2.2.2.2.2.2.1)

/-- Claim C3 (amended): `frames_per_step` stays nonzero — so the
per-tick `%` and `/` by it are well defined — provided every applied
tempo satisfies `bpm ≤ 60 · sample_rate` (one step is then at least one
sample long).  The computation `(uint64_t)(seconds_per_beat ·
sample_rate) = ⌊60·sr/bpm⌋` truncates to 0 for any positive tempo above
`60 · sample_rate`, which the `bpm > 0` guard does not prevent (see the
counterexample), so the claim as stated — for *every* sequence of
positive tempo updates — fails. -/
theorem c3_fps_nonzero (gs : GridSeq) (inp : TickIn)
    (hsr : 0 < gs.st.sample_rate)
    (hfps : 0 < gs.st.frames_per_step)
    (hbpm : ∀ b s, InEvent.position (some b) s ∈ inp.events
      → b ≤ 60 * gs.st.sample_rate) :
    0 < (run gs inp).1.st.frames_per_step := by
  have h0f : 0 < (read_length_port gs inp.sequence_length_port).st.frames_per_step := by
    rw [(read_length_proj gs inp.sequence_length_port).2.1]
    exact hfps
  have h0s : (read_length_port gs inp.sequence_length_port).st.sample_rate
      = gs.st.sample_rate := (read_length_proj gs inp.sequence_length_port).2.2
  have hfold : ∀ (evs : List InEvent) (g : GridSeq),
      g.st.sample_rate = gs.st.sample_rate → 0 < g.st.frames_per_step →
      (∀ b s, InEvent.position (some b) s ∈ evs → b ≤ 60 * gs.st.sample_rate) →
      0 < (evs.foldl process_event g).st.frames_per_step := by
    intro evs
    induction evs with
    | nil => exact fun g _ h2 _ => h2
    | cons e evs ih =>
        intro g h1 h2 h3
        rw [List.foldl_cons]
        have he := process_event_fps g e (h1 ▸ hsr) h2 (fun b s hes => by
          rw [h1]
          exact h3 b s (hes ▸ List.mem_cons_self e evs))
        exact ih _ (he.2.trans h1) he.1 (fun b s hm => h3 b s (List.mem_cons_of_mem e hm))
  have hp1 := hfold inp.events (read_length_port gs inp.sequence_length_port)
    h0s h0f hbpm
  have hctr := controls_fps
    (inp.events.foldl process_event (read_length_port gs inp.sequence_length_port))
    inp.grid_x inp.grid_y
  have hpp : pre_playback gs inp
      = process_grid_controls
          (inp.events.foldl process_event (read_length_port gs inp.sequence_length_port))
          inp.grid_x inp.grid_y := rfl
  rcases hh : pre_playback gs inp with gE | gC
  · rw [run_eq_early hh]
    rw [hpp] at hh
    rw [hh] at hctr
    simp only [Sum.elim_inl] at hctr
    rw [hctr]
    exact hp1
  · rw [run_eq_main hh]
    rw [run_main_st, (playback_proj _ _ _).1]
    rw [hpp] at hh
    rw [hh] at hctr
    simp only [Sum.elim_inr] at hctr
    rw [hctr]
    exact hp1

/-- Claim C3 counterexample: the tempo 4 000 000 BPM is positive and
accepted by the `bpm > 0` guards, yet on a 48 kHz instance
`frames_per_step` becomes `⌊60·48000/4000000⌋ = 0` after the tick, so
the subsequent `%`/`/` operations divide by zero — the claim fails for
this sequence of positive tempo updates. -/
theorem c3_counterexample :
    ((0:ℚ) < 4000000) ∧
    ((0:ℚ) < (instantiate 48000).st.sample_rate) ∧
    (instantiate 48000).st.frames_per_step = 24000 ∧
    (run (instantiate 48000) in_c3).1.st.frames_per_step = 0 := by decide

/-- Witness of `c3_fps_nonzero` on a 60 BPM update at a 1 Hz sample
rate (the bound `bpm ≤ 60·sample_rate` holds with equality). -/
theorem c3_witness :
    (0:ℚ) < gs_c3.st.sample_rate ∧ 0 < gs_c3.st.frames_per_step ∧
    0 < (run gs_c3 in_c3w).1.st.frames_per_step :=
  ⟨by decide, by decide,
    c3_fps_nonzero gs_c3 in_c3w (by decide) (by decide)
      (by
        intro b s hm
        simp only [in_c3w, quiet_in, List.mem_singleton] at hm
        injection hm with hm1 hm2
        injection hm1 with hm1
        rw [hm1]
        show (60:ℚ) ≤ 60 * gs_c3.st.sample_rate
        rw [show gs_c3.st.sample_rate = 1 from rfl, mul_one])⟩
